import Mathlib

/-!
VM lifecycle, sandbox handoff and netkit endpoint of the kata runtime

A shallow embedding of `src/runtime/virtcontainers/vm.go` and
`src/runtime/virtcontainers/netkit_endpoint.go`.

Modelling conventions

* Go `error` values are identified with their message (`GoError`); `nil` is `none`.
* `uint32` fields and arguments are natural numbers, every `+=` is reduced modulo `2^32`.
* Hypervisor, agent, persistence store, filesystem-share, network and the OS are
  collaborators whose code is not part of the embedded files.  Every collaborator call a
  function makes is appended, with its receiver and arguments, to `World.trace`, in
  program order.  What the collaborator answers is an input of the embedded function: one
  outcome per call site (no embedded function contains a loop, so a call site runs at most
  once per invocation).
* `os.Symlink`, `os.RemoveAll` and `os.Remove` additionally act on `World.fs`, the table
  of symbolic links (path, target) present on the host.
* Pure helpers of the repository that live outside the embedded files (`GetSharePath`,
  `getMountPath`, `utils.BuildSocketPath`, `validateHypervisorConfig`, ...) and
  `filepath.Join` are fields of `Deps`.
* Generators (`uuid.Generate`, `utils.GenerateRandomBytes`, the agent constructor) only
  supply a value; what they return is a field of the outcome record and they leave no entry
  in the trace.
-/

namespace Kata

/-- Go error value, identified with its message. -/
abbrev GoError := String

/-- Opaque reference to a collaborator object (hypervisor, agent, store, share, network). -/
abbrev Handle := Nat

/-- Reduction of a natural number to the range of a Go uint32. -/
def u32 (n : Nat) : Nat := n % 2 ^ 32

/-- Device kinds named by the embedded code when it talks to the hypervisor. -/
inductive DeviceType where
  | NetDev
  | VhostuserDev
  | CpuDev
  | MemoryDev
  deriving DecidableEq, Repr

/-- Memory device descriptor; vm.go builds it positionally as MemoryDevice{1, int(numMB), 0, false}. -/
structure MemoryDevice where
  Slot : Nat
  SizeMB : Nat
  Addr : Nat
  Probe : Bool
  deriving DecidableEq, Repr

/-- Kind tag of a vhost-user device; vm.go only uses config.VhostUserFS. -/
inductive VhostUserDeviceType where
  | VhostUserFS
  deriving DecidableEq, Repr

/-- The fields of config.VhostUserDeviceAttrs that assignSandbox fills in. -/
structure VhostUserDeviceAttrs where
  DevID : String
  SocketPath : String
  Typ : VhostUserDeviceType
  Tag : String
  CacheSize : Nat
  Cache : String
  QueueSize : Nat
  deriving DecidableEq, Repr

/-- Endpoint type tag (a Go string type); its zero value is the empty string. -/
abbrev EndpointType := String

/-- How the host and guest sides of a pair are joined (a Go integer type); its zero value
is 0. -/
abbrev NetInterworkingModel := Nat

/-- One network interface of a pair: the fields the embedded files and their tests name. -/
structure NetworkInterface where
  Name : String
  HardAddr : String
  Addrs : List String
  deriving DecidableEq, Repr

/-- The host side of a pair: identifier, bridge name and tap interface. -/
structure TapInterface where
  ID : String
  Name : String
  TAPIface : NetworkInterface
  deriving DecidableEq, Repr

/-- NetworkInterfacePair; Go embeds TapInterface, so its ID, Name and TAPIface are reached
through the pair directly. -/
structure NetworkInterfacePair where
  TapInterface : TapInterface
  VirtIface : NetworkInterface
  NetInterworkingModel : NetInterworkingModel
  deriving DecidableEq, Repr

/-- PCI path as the tests of the endpoint build it. -/
structure PciPath where
  Bus : String
  Device : String
  Function : String
  deriving DecidableEq, Repr

/-- CCW device address. -/
structure CcwDevice where
  DevNo : String
  deriving DecidableEq, Repr

/-- NetworkInfo, reduced to the interface name and type the tests set; the endpoint only
stores and returns it. -/
structure NetworkInfo where
  IfaceName : String
  IfaceType : String
  deriving DecidableEq, Repr

/-- NetkitEndpoint gathers a network pair and its properties. -/
structure NetkitEndpoint where
  EndpointType : EndpointType
  PCIPath : PciPath
  CCWDevice : Option CcwDevice
  EndpointProperties : NetworkInfo
  NetPair : NetworkInterfacePair
  RxRateLimiter : Bool
  TxRateLimiter : Bool
  deriving DecidableEq, Repr

/-- The values vm.go and netkit_endpoint.go pass as the untyped device descriptor of the
hotplug calls. -/
inductive Device where
  | cpus (num : Nat)
  | memory (dev : MemoryDevice)
  | vhostUser (attrs : VhostUserDeviceAttrs)
  | endpoint (endpoint : NetkitEndpoint)
  deriving DecidableEq, Repr

/-- The fields of HypervisorConfig read or written by vm.go. -/
structure HypervisorConfig where
  VMStorePath : String
  RunStorePath : String
  SharedPath : String
  SharedFS : String
  VMid : String
  BootFromTemplate : Bool
  MemorySize : Nat
  VirtioFSCache : String
  VirtioFSCacheSize : Nat
  VirtioFSQueueSize : Nat
  deriving DecidableEq, Repr

/-- Hypervisor type name (a Go string type). -/
abbrev HypervisorType := String

/-- Agent configuration; vm.go hands it to the agent without looking inside. -/
abbrev KataAgentConfig := String

/-- VMConfig is a collection of all info that a new blackbox VM needs. -/
structure VMConfig where
  HypervisorType : HypervisorType
  AgentConfig : KataAgentConfig
  HypervisorConfig : HypervisorConfig
  deriving DecidableEq, Repr

/-- One collaborator call, with its receiver and arguments. -/
inductive Call where
  | NewHypervisor (hType : HypervisorType)
  | NewNetwork
  | GetDriver
  | CreateVM (hypervisor : Handle) (id : String) (network : Handle) (config : HypervisorConfig)
  | configure (agent : Handle) (hypervisor : Handle) (id : String) (sharePath : String)
      (config : KataAgentConfig)
  | setAgentURL (agent : Handle)
  | StartVM (hypervisor : Handle) (timeout : Nat)
  | check (agent : Handle)
  | StopVM (hypervisor : Handle) (force : Bool)
  | Destroy (store : Handle) (id : String)
  | HotplugAddDevice (hypervisor : Handle) (devInfo : Device) (devType : DeviceType)
  | onlineCPUMem (agent : Handle) (cpus : Nat) (cpuOnly : Bool)
  | reuseAgent (sandboxAgent : Handle) (vmAgent : Handle)
  | StopVirtiofsDaemon (hypervisor : Handle)
  | Cleanup (fsShare : Handle)
  | Prepare (fsShare : Handle)
  | StartVirtiofsDaemon (hypervisor : Handle) (sharedPath : String)
  | RemoveAll (path : String)
  | Symlink (oldname : String) (newname : String)
  | Remove (name : String)
  | toGrpc (hypervisor : Handle)
  | fromGrpc (hypervisor : Handle) (config : HypervisorConfig) (blob : List Nat)
  | configureFromGrpc (agent : Handle) (hypervisor : Handle) (id : String)
      (config : KataAgentConfig)
  | createNetworkInterfacePair (idx : Int) (ifName : String)
      (interworkingModel : NetInterworkingModel)
  | doNetNSDisconnect (netNsPath : String) (endpoint : NetkitEndpoint)
  | HotplugRemoveDevice (hypervisor : Handle) (devInfo : Device) (devType : DeviceType)
  deriving DecidableEq, Repr

/-- Host-side state observed by the embedding: the calls made so far and the symlink table. -/
structure World where
  trace : List Call
  fs : List (String × String)
  deriving DecidableEq, Repr

/-- Record a collaborator call. -/
def World.call (w : World) (c : Call) : World :=
  { w with trace := w.trace ++ [c] }

/-- Whether a path is present in the symlink table. -/
def World.hasLink (w : World) (path : String) : Bool :=
  w.fs.any (fun e => e.1 == path)

/-- Effect of os.RemoveAll and os.Remove on the symlink table: the entry is gone afterwards. -/
def World.unlink (w : World) (path : String) : World :=
  { w with fs := w.fs.filter (fun e => !(e.1 == path)) }

/-- Effect of a successful os.Symlink(oldname, newname) on the symlink table. -/
def World.link (w : World) (oldname newname : String) : World :=
  { w with fs := (newname, oldname) :: w.fs }

/-- VM is abstraction of a virtual machine. -/
structure VM where
  hypervisor : Handle
  agent : Handle
  store : Handle
  id : String
  cpu : Nat
  memory : Nat
  cpuDelta : Nat
  deriving DecidableEq, Repr

/-- Outcome of a method that returns an error and may have updated its receiver. -/
structure VMResult where
  err : Option GoError
  vm : VM
  world : World
  deriving DecidableEq, Repr

/-- Stop stops a VM process.  The two arguments after the receiver are what
hypervisor.StopVM and store.Destroy answer when called. -/
def VM.Stop (v : VM) (stopVM destroy : Option GoError) (w : World) : VMResult :=
  let w := w.call (.StopVM v.hypervisor false)
  match stopVM with
  | some err => ⟨some err, v, w⟩
  | none => ⟨destroy, v, w.call (.Destroy v.store v.id)⟩

/-- AddCPUs adds num of CPUs to the VM.  The argument hotplug is what
hypervisor.HotplugAddDevice answers when called. -/
def VM.AddCPUs (v : VM) (num : Nat) (hotplug : Option GoError) (w : World) : VMResult :=
  if num > 0 then
    let w := w.call (.HotplugAddDevice v.hypervisor (.cpus num) .CpuDev)
    match hotplug with
    | some err => ⟨some err, v, w⟩
    | none =>
      let v := { v with cpuDelta := u32 (v.cpuDelta + num) }
      let v := { v with cpu := u32 (v.cpu + num) }
      ⟨none, v, w⟩
  else
    ⟨none, v, w⟩

/-- AddMemory adds numMB of memory to the VM.  The argument hotplug is what
hypervisor.HotplugAddDevice answers when called. -/
def VM.AddMemory (v : VM) (numMB : Nat) (hotplug : Option GoError) (w : World) : VMResult :=
  if numMB > 0 then
    let dev : MemoryDevice := ⟨1, numMB, 0, false⟩
    let w := w.call (.HotplugAddDevice v.hypervisor (.memory dev) .MemoryDev)
    match hotplug with
    | some err => ⟨some err, v, w⟩
    | none => ⟨none, v, w⟩
  else
    ⟨none, v, w⟩

/-- OnlineCPUMemory puts the hotplugged CPU and memory online.  The argument online is what
agent.onlineCPUMem answers. -/
def VM.OnlineCPUMemory (v : VM) (online : Option GoError) (w : World) : VMResult :=
  let w := w.call (.onlineCPUMem v.agent v.cpu false)
  match online with
  | none => ⟨none, { v with cpuDelta := 0 }, w⟩
  | some err => ⟨some err, v, w⟩

/-- One call of the resource-growth interface of a VM, together with what the
collaborator it reaches answers (unused when the call reaches no collaborator). -/
inductive VMOp where
  | AddCPUs (num : Nat) (hotplug : Option GoError)
  | AddMemory (numMB : Nat) (hotplug : Option GoError)
  | OnlineCPUMemory (online : Option GoError)
  deriving DecidableEq, Repr

/-- Perform one call on the VM. -/
def VM.step (v : VM) (op : VMOp) (w : World) : VMResult :=
  match op with
  | .AddCPUs num hotplug => v.AddCPUs num hotplug w
  | .AddMemory numMB hotplug => v.AddMemory numMB hotplug w
  | .OnlineCPUMemory online => v.OnlineCPUMemory online w

/-- Outcome of a sequence of calls: each call paired with the error it returned, and the
final VM and world. -/
structure RunResult where
  history : List (VMOp × Option GoError)
  vm : VM
  world : World
  deriving DecidableEq, Repr

/-- Perform a sequence of calls, one after the other, on the same VM. -/
def VM.run (v : VM) (w : World) : List VMOp → RunResult
  | [] => ⟨[], v, w⟩
  | op :: ops =>
    let r := v.step op w
    let rest := r.vm.run r.world ops
    ⟨(op, r.err) :: rest.history, rest.vm, rest.world⟩

/-- The calls made after the last successful OnlineCPUMemory of a history; acc collects the
calls seen since the last one found so far. -/
def sinceLastOnline (acc : List (VMOp × Option GoError)) :
    List (VMOp × Option GoError) → List (VMOp × Option GoError)
  | [] => acc
  | (.OnlineCPUMemory _, none) :: rest => sinceLastOnline [] rest
  | e :: rest => sinceLastOnline (acc ++ [e]) rest

/-- Argument of a call if it is an AddCPUs that returned nil, zero otherwise. -/
def addedCPUs : VMOp × Option GoError → Nat
  | (.AddCPUs num _, none) => num
  | _ => 0

/-- Written from the specification, not from the code: the sum of the arguments of the
AddCPUs calls that succeeded since the last successful OnlineCPUMemory. -/
def outstandingCPUs (history : List (VMOp × Option GoError)) : Nat :=
  ((sinceLastOnline [] history).map addedCPUs).sum

/-- Pure helpers and constants that vm.go uses and that are declared outside the embedded
files. -/
structure Deps where
  validateHypervisorConfig : HypervisorConfig → Option GoError
  NumVCPUs : HypervisorConfig → Nat
  RunVMStoragePath : Handle → String
  RunStoragePath : Handle → String
  GetSharePath : String → String
  getMountPath : String → String
  BuildSocketPath : List String → Except GoError String
  Join : List String → String
  VmStartTimeout : Nat

/-- The guest mount tag; vm.go notes its value next to its use. -/
def mountGuestTag : String := "kataShared"

/-- Lower-case hexadecimal digit of a number below sixteen. -/
def hexDigit (n : Nat) : Char :=
  "0123456789abcdef".toList.getD n '0'

/-- Go hex.EncodeToString on a list of bytes. -/
def hexEncodeToString (bytes : List Nat) : String :=
  String.mk (bytes.flatMap fun b => [hexDigit (b / 16 % 16), hexDigit (b % 16)])

/-- Go fmt.Errorf with a format of the shape "msg: %w". -/
def errorfW (msg : String) (err : GoError) : GoError :=
  msg ++ ": " ++ err

def buildVMSharePath (d : Deps) (id : String) (vmStoragePath : String) : String :=
  d.Join [vmStoragePath, id, "shared"]

/-- VMConfig.Valid. -/
def VMConfig.Valid (d : Deps) (c : VMConfig) : Option GoError :=
  d.validateHypervisorConfig c.HypervisorConfig

/-- The sandbox configuration, reduced to the part vm.go touches. -/
structure SandboxConfig where
  HypervisorConfig : HypervisorConfig
  deriving DecidableEq, Repr

/-- The fields of Sandbox that assignSandbox reads or writes. -/
structure Sandbox where
  id : String
  agent : Handle
  fsShare : Handle
  hypervisor : Handle
  config : SandboxConfig
  deriving DecidableEq, Repr

/-- What the collaborators answer during one assignSandbox, one field per call site.  The
results of os.RemoveAll and os.Remove are discarded by the code and have no field; both are
taken to remove the path. -/
structure AssignOutcomes where
  reuseAgent : Option GoError
  StopVirtiofsDaemon : Option GoError
  Cleanup : Option GoError
  Prepare : Option GoError
  StartVirtiofsDaemon : Option GoError
  GenerateRandomBytes : Except GoError (List Nat)
  HotplugAddDevice : Option GoError
  SymlinkShare : Option GoError
  SymlinkSock : Option GoError

/-- Outcome of assignSandbox: the returned error, the sandbox as left behind, the world. -/
structure AssignResult where
  err : Option GoError
  sandbox : Sandbox
  world : World
  deriving DecidableEq, Repr

/-- The body of the virtio-fs branch of assignSandbox (vm.go lines 386 to 450). -/
def VM.hotplugVirtioFS (d : Deps) (o : AssignOutcomes) (v : VM) (s : Sandbox) (w : World) :
    AssignResult :=
  -- Stop the old virtiofsd daemon from the cached VM; a failure is only logged
  let w := w.call (.StopVirtiofsDaemon v.hypervisor)
  -- Clean up any existing filesystem share structure; a failure is only logged
  let w := w.call (.Cleanup s.fsShare)
  -- Prepare the filesystem share structure
  let w := w.call (.Prepare s.fsShare)
  match o.Prepare with
  | some err => ⟨some (errorfW "failed to prepare sandbox filesystem share" err), s, w⟩
  | none =>
    let sandboxSharedPath := d.GetSharePath s.id
    let s := { s with config.HypervisorConfig.SharedPath := sandboxSharedPath }
    let w := w.call (.StartVirtiofsDaemon v.hypervisor sandboxSharedPath)
    match o.StartVirtiofsDaemon with
    | some err => ⟨some (errorfW "failed to start virtiofsd for sandbox" err), s, w⟩
    | none =>
      match d.BuildSocketPath [s.config.HypervisorConfig.VMStorePath, v.id, "vhost-fs.sock"] with
      | .error err => ⟨some (errorfW "failed to build virtiofsd socket path" err), s, w⟩
      | .ok virtiofsdSocketPath =>
        match o.GenerateRandomBytes with
        | .error err => ⟨some (errorfW "failed to generate device ID" err), s, w⟩
        | .ok randBytes =>
          let devID := hexEncodeToString randBytes
          let vhostFsAttrs : VhostUserDeviceAttrs :=
            { DevID := devID
              SocketPath := virtiofsdSocketPath
              Typ := .VhostUserFS
              Tag := mountGuestTag
              CacheSize := s.config.HypervisorConfig.VirtioFSCacheSize
              Cache := s.config.HypervisorConfig.VirtioFSCache
              QueueSize := s.config.HypervisorConfig.VirtioFSQueueSize }
          let w := w.call (.HotplugAddDevice v.hypervisor (.vhostUser vhostFsAttrs) .VhostuserDev)
          match o.HotplugAddDevice with
          | some err => ⟨some (errorfW "failed to hot-plug VirtioFS device" err), s, w⟩
          | none => ⟨none, s, w⟩

/-- The symlink rewiring and the final binding of assignSandbox (vm.go lines 453 to 469). -/
def VM.rewireSymlinks (o : AssignOutcomes) (v : VM) (s : Sandbox) (w : World)
    (vmSharePath vmSockDir sbSharePath sbSockDir : String) : AssignResult :=
  -- First make sure the symlinks do not exist
  let w := (w.call (.RemoveAll sbSharePath)).unlink sbSharePath
  let w := (w.call (.RemoveAll sbSockDir)).unlink sbSockDir
  let w := w.call (.Symlink vmSharePath sbSharePath)
  match o.SymlinkShare with
  | some err => ⟨some err, s, w⟩
  | none =>
    let w := w.link vmSharePath sbSharePath
    let w := w.call (.Symlink vmSockDir sbSockDir)
    match o.SymlinkSock with
    | some err => ⟨some err, s, (w.call (.Remove sbSharePath)).unlink sbSharePath⟩
    | none =>
      let w := w.link vmSockDir sbSockDir
      let s := { s with hypervisor := v.hypervisor }
      let s := { s with config.HypervisorConfig.VMid := v.id }
      ⟨none, s, w⟩

/-- Whether the shared-filesystem mode is one of the two virtio-fs variants. -/
def isVirtioFS (sharedFS : String) : Bool :=
  sharedFS == "virtio-fs" || sharedFS == "virtio-fs-nydus"

/-- The local variable vmSharePath of assignSandbox: the share directory of the VM. -/
def vmSharePath (d : Deps) (v : VM) : String :=
  buildVMSharePath d v.id (d.RunVMStoragePath v.store)

/-- The local variable vmSockDir of assignSandbox: the run directory of the VM. -/
def vmSockDir (d : Deps) (v : VM) : String :=
  d.Join [d.RunVMStoragePath v.store, v.id]

/-- The local variable sbSharePath of assignSandbox: where the share symlink is made. -/
def sbSharePath (d : Deps) (s : Sandbox) : String :=
  d.getMountPath s.id

/-- The local variable sbSockDir of assignSandbox: where the socket-directory symlink is made. -/
def sbSockDir (d : Deps) (v : VM) (s : Sandbox) : String :=
  d.Join [d.RunVMStoragePath v.store, s.id]

/-- VM.assignSandbox of vm.go. -/
def VM.assignSandbox (d : Deps) (o : AssignOutcomes) (v : VM) (s : Sandbox) (w : World) :
    AssignResult :=
  let vmSharePath := vmSharePath d v
  let vmSockDir := vmSockDir d v
  let sbSharePath := sbSharePath d s
  let sbSockDir := sbSockDir d v s
  let w := w.call (.reuseAgent s.agent v.agent)
  match o.reuseAgent with
  | some err => ⟨some err, s, w⟩
  | none =>
    let r : AssignResult :=
      if isVirtioFS s.config.HypervisorConfig.SharedFS then v.hotplugVirtioFS d o s w
      else ⟨none, s, w⟩
    match r.err with
    | some err => ⟨some err, r.sandbox, r.world⟩
    | none => v.rewireSymlinks o r.sandbox r.world vmSharePath vmSockDir sbSharePath sbSockDir

/-- What the collaborators answer during one NewVM, one field per call site.  The results
of the StopVM and store.Destroy calls made while unwinding are discarded by the code and
have no field. -/
structure NewVMOutcomes where
  NewHypervisor : Except GoError Handle
  NewNetwork : Except GoError Handle
  uuid : String
  GetDriver : Except GoError Handle
  CreateVM : Option GoError
  newAgent : Handle
  configure : Option GoError
  setAgentURL : Option GoError
  StartVM : Option GoError
  check : Option GoError

/-- Outcome of NewVM: the returned VM (none for nil), the returned error, the world. -/
structure NewVMResult where
  vm : Option VM
  err : Option GoError
  world : World
  deriving DecidableEq, Repr

/-- The first deferred function of NewVM (vm.go lines 115 to 121), run when NewVM returns. -/
def NewVM.deferDestroy (store : Handle) (id : String) (err : Option GoError) (w : World) :
    World :=
  if err.isSome then w.call (.Destroy store id) else w

/-- The second deferred function of NewVM (vm.go lines 158 to 163), run when NewVM returns. -/
def NewVM.deferStopVM (hypervisor : Handle) (err : Option GoError) (w : World) : World :=
  if err.isSome then w.call (.StopVM hypervisor false) else w

/-- NewVM creates a new VM based on provided VMConfig.  Deferred functions run at each
return reached after their registration, last registered first. -/
def NewVM (d : Deps) (o : NewVMOutcomes) (config : VMConfig) (w : World) : NewVMResult :=
  -- 1. setup hypervisor
  let w := w.call (.NewHypervisor config.HypervisorType)
  match o.NewHypervisor with
  | .error err => ⟨none, some err, w⟩
  | .ok hypervisor =>
  let w := w.call .NewNetwork
  match o.NewNetwork with
  | .error err => ⟨none, some err, w⟩
  | .ok network =>
  match config.Valid d with
  | some err => ⟨none, some err, w⟩
  | none =>
  let id := o.uuid
  let w := w.call .GetDriver
  match o.GetDriver with
  | .error err => ⟨none, some err, w⟩
  | .ok store =>
  -- from here on deferDestroy is registered
  let hc := config.HypervisorConfig
  let hc := if hc.VMStorePath == "" then { hc with VMStorePath := d.RunVMStoragePath store } else hc
  let hc := if hc.RunStorePath == "" then { hc with RunStorePath := d.RunStoragePath store } else hc
  let hc := if hc.SharedPath == "" then
      { hc with SharedPath := buildVMSharePath d id (d.RunVMStoragePath store) } else hc
  let w := w.call (.CreateVM hypervisor id network hc)
  match o.CreateVM with
  | some err => ⟨none, some err, NewVM.deferDestroy store id (some err) w⟩
  | none =>
  -- 2. setup agent
  let agent := o.newAgent
  let vmSharePath := buildVMSharePath d id (d.RunVMStoragePath store)
  let w := w.call (.configure agent hypervisor id vmSharePath config.AgentConfig)
  match o.configure with
  | some err => ⟨none, some err, NewVM.deferDestroy store id (some err) w⟩
  | none =>
  let w := w.call (.setAgentURL agent)
  match o.setAgentURL with
  | some err => ⟨none, some err, NewVM.deferDestroy store id (some err) w⟩
  | none =>
  -- 3. boot up guest vm
  let w := w.call (.StartVM hypervisor d.VmStartTimeout)
  match o.StartVM with
  | some err => ⟨none, some err, NewVM.deferDestroy store id (some err) w⟩
  | none =>
  -- from here on deferStopVM is registered too
  let vm : VM :=
    { id := id, hypervisor := hypervisor, agent := agent, cpu := d.NumVCPUs hc,
      memory := hc.MemorySize, store := store, cpuDelta := 0 }
  -- 4. Check agent aliveness; VMs booted from template are paused, do not Check
  if !hc.BootFromTemplate then
    let w := w.call (.check agent)
    match o.check with
    | some err =>
      ⟨none, some err, NewVM.deferDestroy store id (some err) (NewVM.deferStopVM hypervisor (some err) w)⟩
    | none => ⟨some vm, none, NewVM.deferDestroy store id none (NewVM.deferStopVM hypervisor none w)⟩
  else
    ⟨some vm, none, NewVM.deferDestroy store id none (NewVM.deferStopVM hypervisor none w)⟩

/-- The transport-neutral VM descriptor pb.GrpcVM. -/
structure GrpcVM where
  Id : String
  Hypervisor : List Nat
  Cpu : Nat
  Memory : Nat
  CpuDelta : Nat
  deriving DecidableEq, Repr

/-- The status record pb.GrpcVMStatus. -/
structure GrpcVMStatus where
  Pid : Int
  Cpu : Nat
  Memory : Nat
  deriving DecidableEq, Repr

/-- Outcome of ToGrpc: the returned descriptor (none for nil), the returned error, the
world. -/
structure ToGrpcResult where
  desc : Option GrpcVM
  err : Option GoError
  world : World
  deriving DecidableEq, Repr

/-- ToGrpc convert VM struct to Grpc format pb.GrpcVM.  The argument toGrpc is what
hypervisor.toGrpc answers; the config argument is not used by the code. -/
def VM.ToGrpc (v : VM) (_config : VMConfig) (toGrpc : Except GoError (List Nat)) (w : World) :
    ToGrpcResult :=
  let w := w.call (.toGrpc v.hypervisor)
  match toGrpc with
  | .error err => ⟨none, some err, w⟩
  | .ok hJSON =>
    ⟨some { Id := v.id, Hypervisor := hJSON, Cpu := v.cpu, Memory := v.memory,
            CpuDelta := v.cpuDelta }, none, w⟩

/-- GetVMStatus; the argument pid is what GetHypervisorPid answers for the hypervisor. -/
def VM.GetVMStatus (v : VM) (pid : Int) : GrpcVMStatus :=
  { Pid := pid, Cpu := v.cpu, Memory := v.memory }

/-- What the collaborators answer during one NewVMFromGrpc, one field per call site.  The
result of agent.configureFromGrpc is discarded by the code and has no field. -/
structure NewVMFromGrpcOutcomes where
  NewHypervisor : Except GoError Handle
  GetDriver : Except GoError Handle
  fromGrpc : Option GoError
  newAgent : Handle
  setAgentURL : Option GoError

/-- The deferred function of NewVMFromGrpc (vm.go lines 199 to 205), run when it returns. -/
def NewVMFromGrpc.deferDestroy (store : Handle) (id : String) (err : Option GoError)
    (w : World) : World :=
  if err.isSome then w.call (.Destroy store id) else w

/-- NewVMFromGrpc creates a new VM based on provided pb.GrpcVM and VMConfig. -/
def NewVMFromGrpc (d : Deps) (o : NewVMFromGrpcOutcomes) (v : GrpcVM) (config : VMConfig)
    (w : World) : NewVMResult :=
  let w := w.call (.NewHypervisor config.HypervisorType)
  match o.NewHypervisor with
  | .error err => ⟨none, some err, w⟩
  | .ok hypervisor =>
  let w := w.call .GetDriver
  match o.GetDriver with
  | .error err => ⟨none, some err, w⟩
  | .ok store =>
  -- from here on deferDestroy is registered
  let hc := config.HypervisorConfig
  let hc := if hc.VMStorePath == "" then { hc with VMStorePath := d.RunVMStoragePath store } else hc
  let hc := if hc.RunStorePath == "" then { hc with RunStorePath := d.RunStoragePath store } else hc
  let hc := if hc.SharedPath == "" then
      { hc with SharedPath := buildVMSharePath d v.Id (d.RunVMStoragePath store) } else hc
  let w := w.call (.fromGrpc hypervisor hc v.Hypervisor)
  match o.fromGrpc with
  | some err => ⟨none, some err, NewVMFromGrpc.deferDestroy store v.Id (some err) w⟩
  | none =>
  -- create agent instance
  let agent := o.newAgent
  let w := w.call (.configureFromGrpc agent hypervisor v.Id config.AgentConfig)
  let w := w.call (.setAgentURL agent)
  match o.setAgentURL with
  | some err => ⟨none, some err, NewVMFromGrpc.deferDestroy store v.Id (some err) w⟩
  | none =>
    let vm : VM :=
      { id := v.Id, hypervisor := hypervisor, agent := agent, cpu := v.Cpu,
        memory := v.Memory, cpuDelta := v.CpuDelta, store := store }
    ⟨some vm, none, NewVMFromGrpc.deferDestroy store v.Id none w⟩

/-- The calls that boot a guest and probe its agent: StartVM and the liveness check. -/
def Call.isBoot : Call → Bool
  | .StartVM _ _ => true
  | .check _ => true
  | _ => false

/-- The zero value NetkitEndpoint{} of Go: every field is the zero value of its type. -/
def NetkitEndpoint.zero : NetkitEndpoint :=
  { EndpointType := "", PCIPath := ⟨"", "", ""⟩, CCWDevice := none,
    EndpointProperties := ⟨"", ""⟩,
    NetPair := ⟨⟨"", "", ⟨"", "", []⟩⟩, ⟨"", "", []⟩, 0⟩,
    RxRateLimiter := false, TxRateLimiter := false }

/-- Modelled from the spec: the constant NetkitEndpointType, declared outside the embedded
files; it is the type tag of netkit endpoints. -/
def NetkitEndpointType : EndpointType := "netkit"

/-- What the generators answer during createNetworkInterfacePair: the unique identifier
and the random hardware address, whose generation may fail. -/
structure PairOutcomes where
  uniqueID : String
  randomMacAddr : Except GoError String

/-- Modelled from the spec: createNetworkInterfacePair, which lives in network.go outside
the embedded files.  It builds a host/guest interface pair (bridge, tap and virtual
interface) for an index; the guest-visible name is derived from the index when no name is
supplied and is the supplied name otherwise.  The shape of the derived names is the one
the tests of the endpoint expect: eth, br and tap followed by the index. -/
def createNetworkInterfacePair (o : PairOutcomes) (idx : Int) (ifName : String)
    (interworkingModel : NetInterworkingModel) : Except GoError NetworkInterfacePair :=
  match o.randomMacAddr with
  | .error err => .error err
  | .ok randomMacAddr =>
    let netPair : NetworkInterfacePair :=
      { TapInterface :=
          { ID := o.uniqueID
            Name := "br" ++ toString idx ++ "_kata"
            TAPIface := { Name := "tap" ++ toString idx ++ "_kata", HardAddr := "", Addrs := [] } }
        VirtIface := { Name := "eth" ++ toString idx, HardAddr := randomMacAddr, Addrs := [] }
        NetInterworkingModel := interworkingModel }
    if ifName != "" then .ok { netPair with VirtIface.Name := ifName } else .ok netPair

/-- Outcome of createNetkitNetworkEndpoint: the returned endpoint (none for nil), the
returned error, the world. -/
structure EndpointCreateResult where
  endpoint : Option NetkitEndpoint
  err : Option GoError
  world : World
  deriving DecidableEq, Repr

/-- The function createNetkitNetworkEndpoint of netkit_endpoint.go.  The argument
createPair is what createNetworkInterfacePair answers. -/
def createNetkitNetworkEndpoint
    (createPair : Int → String → NetInterworkingModel → Except GoError NetworkInterfacePair)
    (idx : Int) (ifName : String) (interworkingModel : NetInterworkingModel) (w : World) :
    EndpointCreateResult :=
  if idx < 0 then
    ⟨some NetkitEndpoint.zero, some ("invalid network endpoint index: " ++ toString idx), w⟩
  else
    let w := w.call (.createNetworkInterfacePair idx ifName interworkingModel)
    match createPair idx ifName interworkingModel with
    | .error err => ⟨none, some err, w⟩
    | .ok netPair =>
      let endpoint : NetkitEndpoint :=
        { NetkitEndpoint.zero with NetPair := netPair, EndpointType := NetkitEndpointType }
      let endpoint :=
        if ifName != "" then { endpoint with NetPair.VirtIface.Name := ifName } else endpoint
      ⟨some endpoint, none, w⟩

/-- Name returns name of the netkit interface in the network pair. -/
def NetkitEndpoint.Name (endpoint : NetkitEndpoint) : String :=
  endpoint.NetPair.VirtIface.Name

/-- The accessor Type of the source: it identifies the endpoint as a netkit endpoint. -/
def NetkitEndpoint.Type_ (endpoint : NetkitEndpoint) : Kata.EndpointType :=
  endpoint.EndpointType

/-- SetPciPath sets the PCI path of the endpoint. -/
def NetkitEndpoint.SetPciPath (endpoint : NetkitEndpoint) (pciPath : PciPath) : NetkitEndpoint :=
  { endpoint with PCIPath := pciPath }

/-- SetCcwDevice sets the CCW device of the endpoint. -/
def NetkitEndpoint.SetCcwDevice (endpoint : NetkitEndpoint) (ccwDev : CcwDevice) :
    NetkitEndpoint :=
  { endpoint with CCWDevice := some ccwDev }

/-- SetRxRateLimiter of the source; it always returns nil. -/
def NetkitEndpoint.SetRxRateLimiter (endpoint : NetkitEndpoint) : NetkitEndpoint :=
  { endpoint with RxRateLimiter := true }

/-- SetTxRateLimiter of the source; it always returns nil. -/
def NetkitEndpoint.SetTxRateLimiter (endpoint : NetkitEndpoint) : NetkitEndpoint :=
  { endpoint with TxRateLimiter := true }

/-- Persisted form of a network pair (persistapi.NetworkInterfacePair): identifier, names,
addresses and interworking model. -/
structure PersistNetworkInterfacePair where
  TapInterface : TapInterface
  VirtIface : NetworkInterface
  NetInterworkingModel : Nat
  deriving DecidableEq, Repr

/-- The netkit part of the persisted form (persistapi.NetkitEndpoint). -/
structure PersistNetkitEndpoint where
  NetPair : PersistNetworkInterfacePair
  deriving DecidableEq, Repr

/-- Persisted form of an endpoint (persistapi.NetworkEndpoint), reduced to the type tag and
the netkit part; the parts of the other endpoint kinds are never touched here. -/
structure PersistNetworkEndpoint where
  Type_ : String
  Netkit : Option PersistNetkitEndpoint
  deriving DecidableEq, Repr

/-- The two conversions between a pair and its persisted form, saveNetIfPair and
loadNetIfPair, which save and load call and which are declared outside the embedded
files. -/
structure PairCodec where
  saveNetIfPair : NetworkInterfacePair → PersistNetworkInterfacePair
  loadNetIfPair : PersistNetworkInterfacePair → NetworkInterfacePair

/-- Modelled from the spec: saveNetIfPair and loadNetIfPair, which live outside the
embedded files.  The persisted pair holds the identifier, the names, the addresses and the
interworking model of the pair, and loading restores them. -/
def specPairCodec : PairCodec :=
  { saveNetIfPair := fun pair =>
      { TapInterface := pair.TapInterface, VirtIface := pair.VirtIface,
        NetInterworkingModel := pair.NetInterworkingModel }
    loadNetIfPair := fun pair =>
      { TapInterface := pair.TapInterface, VirtIface := pair.VirtIface,
        NetInterworkingModel := pair.NetInterworkingModel } }

/-- The method save of NetkitEndpoint. -/
def NetkitEndpoint.save (c : PairCodec) (endpoint : NetkitEndpoint) : PersistNetworkEndpoint :=
  let netpair := c.saveNetIfPair endpoint.NetPair
  { Type_ := endpoint.Type_, Netkit := some { NetPair := netpair } }

/-- The method load of NetkitEndpoint; the result is the receiver after the call. -/
def NetkitEndpoint.load (c : PairCodec) (endpoint : NetkitEndpoint)
    (s : PersistNetworkEndpoint) : NetkitEndpoint :=
  let endpoint := { endpoint with EndpointType := NetkitEndpointType }
  match s.Netkit with
  | some netkit => { endpoint with NetPair := c.loadNetIfPair netkit.NetPair }
  | none => endpoint

/-- What running the unbridging closure inside the network namespace gives: the error
doNetNS returns, and the endpoint as the closure leaves it (xDisconnectVMNetwork works on
the endpoint through a pointer). -/
structure NetNSOutcome where
  err : Option GoError
  endpoint : NetkitEndpoint

/-- Outcome of a detach: the returned error, the endpoint after the call, the world. -/
structure EndpointOpResult where
  err : Option GoError
  endpoint : NetkitEndpoint
  world : World
  deriving DecidableEq, Repr

/-- Detach for the netkit endpoint tears down the tap and bridge created for the netkit
interface. -/
def NetkitEndpoint.Detach (endpoint : NetkitEndpoint) (netNsCreated : Bool)
    (netNsPath : String) (doNetNS : NetNSOutcome) (w : World) : EndpointOpResult :=
  if !netNsCreated then
    ⟨none, endpoint, w⟩
  else
    let w := w.call (.doNetNSDisconnect netNsPath endpoint)
    ⟨doNetNS.err, doNetNS.endpoint, w⟩

/-- HotDetach for the netkit endpoint uses hot pull device.  The argument remove is what
hypervisor.HotplugRemoveDevice answers. -/
def NetkitEndpoint.HotDetach (endpoint : NetkitEndpoint) (s : Sandbox) (netNsCreated : Bool)
    (netNsPath : String) (doNetNS : NetNSOutcome) (remove : Option GoError) (w : World) :
    EndpointOpResult :=
  if !netNsCreated then
    ⟨none, endpoint, w⟩
  else
    -- an error of the unbridging is only logged
    let w := w.call (.doNetNSDisconnect netNsPath endpoint)
    let endpoint := doNetNS.endpoint
    let h := s.hypervisor
    let w := w.call (.HotplugRemoveDevice h (.endpoint endpoint) .NetDev)
    match remove with
    | some err => ⟨some err, endpoint, w⟩
    | none => ⟨none, endpoint, w⟩

/-- The hypervisor-side removal calls. -/
def Call.isHotplugRemove : Call → Bool
  | .HotplugRemoveDevice _ _ _ => true
  | _ => false

/-! ## Sample values used to instantiate the theorems -/

/-- A world in which nothing has happened yet. -/
def World.empty : World := ⟨[], []⟩

/-- A VM with four vCPUs, all of them online. -/
def sampleVM : VM :=
  { hypervisor := 1, agent := 2, store := 3, id := "vm-1", cpu := 4, memory := 2048, cpuDelta := 0 }

/-- A VM whose vCPU counter holds the largest uint32. -/
def fullVM : VM :=
  { hypervisor := 1, agent := 2, store := 3, id := "vm-1", cpu := 4294967295, memory := 2048,
    cpuDelta := 0 }

/-- Helper functions with the path layout of a default installation. -/
def sampleDeps : Deps :=
  { validateHypervisorConfig := fun _ => none
    NumVCPUs := fun _ => 1
    RunVMStoragePath := fun _ => "/run/vc/vm"
    RunStoragePath := fun _ => "/run/vc/sbs"
    GetSharePath := fun id => "/run/kata-containers/shared/sandboxes/" ++ id ++ "/shared"
    getMountPath := fun id => "/run/kata-containers/shared/sandboxes/" ++ id ++ "/mounts"
    BuildSocketPath := fun elems => .ok ("/".intercalate elems)
    Join := fun elems => "/".intercalate elems
    VmStartTimeout := 10 }

/-- A hypervisor configuration with the given shared-filesystem mode. -/
def sampleHypervisorConfig (sharedFS : String) : HypervisorConfig :=
  { VMStorePath := "/run/vc/vm", RunStorePath := "/run/vc/sbs", SharedPath := "",
    SharedFS := sharedFS, VMid := "", BootFromTemplate := false, MemorySize := 2048,
    VirtioFSCache := "auto", VirtioFSCacheSize := 0, VirtioFSQueueSize := 1024 }

/-- A sandbox that has no VM yet, with the given shared-filesystem mode. -/
def sampleSandbox (sharedFS : String) : Sandbox :=
  { id := "sb-1", agent := 7, fsShare := 8, hypervisor := 0,
    config := ⟨sampleHypervisorConfig sharedFS⟩ }

/-- Collaborators that all succeed during assignSandbox. -/
def assignAllOk : AssignOutcomes :=
  { reuseAgent := none, StopVirtiofsDaemon := none, Cleanup := none, Prepare := none,
    StartVirtiofsDaemon := none, GenerateRandomBytes := .ok [222, 173, 190, 239, 0, 1, 2, 3],
    HotplugAddDevice := none, SymlinkShare := none, SymlinkSock := none }

/-- As assignAllOk, with fsShare.Prepare failing. -/
def assignPrepareFails : AssignOutcomes :=
  { assignAllOk with Prepare := some "mount failed" }

/-- As assignAllOk, with StartVirtiofsDaemon failing. -/
def assignStartFails : AssignOutcomes :=
  { assignAllOk with StartVirtiofsDaemon := some "virtiofsd not found" }

/-- As assignAllOk, with the vhost-user hotplug failing. -/
def assignHotplugFails : AssignOutcomes :=
  { assignAllOk with HotplugAddDevice := some "qmp timeout" }

/-- As assignAllOk, with the two best-effort steps failing. -/
def assignBestEffortFails : AssignOutcomes :=
  { assignAllOk with StopVirtiofsDaemon := some "no daemon", Cleanup := some "not mounted" }

/-- A VM configuration that asks for a 9p share and does not boot from a template. -/
def sampleVMConfig : VMConfig :=
  { HypervisorType := "qemu", AgentConfig := "kata", HypervisorConfig := sampleHypervisorConfig "virtio-9p" }

/-- Collaborators that all succeed during NewVM. -/
def newVMAllOk : NewVMOutcomes :=
  { NewHypervisor := .ok 1, NewNetwork := .ok 5, uuid := "vm-1", GetDriver := .ok 3,
    CreateVM := none, newAgent := 2, configure := none, setAgentURL := none, StartVM := none,
    check := none }

/-- As sampleDeps, with a validation that rejects every hypervisor configuration. -/
def rejectingDeps : Deps :=
  { sampleDeps with validateHypervisorConfig := fun _ => some "invalid hypervisor config" }

/-- As newVMAllOk, with an unknown hypervisor type. -/
def newVMNoHypervisor : NewVMOutcomes :=
  { newVMAllOk with NewHypervisor := .error "Unknown hypervisor type" }

/-- As newVMAllOk, with the network constructor failing. -/
def newVMNoNetwork : NewVMOutcomes :=
  { newVMAllOk with NewNetwork := .error "netlink unavailable" }

/-- Collaborators that all succeed during NewVMFromGrpc. -/
def fromGrpcAllOk : NewVMFromGrpcOutcomes :=
  { NewHypervisor := .ok 11, GetDriver := .ok 13, fromGrpc := none, newAgent := 12,
    setAgentURL := none }

/-- A VM with six vCPUs, two of them not yet online. -/
def grownVM : VM :=
  { hypervisor := 1, agent := 2, store := 3, id := "vm-1", cpu := 6, memory := 2048, cpuDelta := 2 }

/-- Generators that succeed during createNetworkInterfacePair. -/
def pairOk : PairOutcomes :=
  { uniqueID := "uniqueTestID-4", randomMacAddr := .ok "02:00:ca:fe:00:04" }

/-- The endpoint of the save and load test of the source. -/
def savedEndpoint : NetkitEndpoint :=
  { NetkitEndpoint.zero with
    NetPair :=
      { TapInterface :=
          { ID := "test-netkit-id", Name := "br5_kata",
            TAPIface := { Name := "tap5_kata", HardAddr := "02:00:ca:fe:00:05", Addrs := [] } }
        VirtIface := { Name := "eth5", HardAddr := "02:00:ca:fe:00:05", Addrs := [] }
        NetInterworkingModel := 2 }
    EndpointType := NetkitEndpointType }

/-- The same endpoint once attached: PCI path, CCW device and both rate limiters set. -/
def attachedEndpoint : NetkitEndpoint :=
  (((savedEndpoint.SetPciPath ⟨"0x01", "0x02", "0x03"⟩).SetCcwDevice
    ⟨"fe.0.0001"⟩).SetRxRateLimiter).SetTxRateLimiter

/-- An unbridging that fails and leaves the endpoint as it was. -/
def unbridgeFails : NetNSOutcome :=
  { err := some "no such namespace", endpoint := attachedEndpoint }

/-! ## Resource growth and teardown -/

/-- C10: Stop first calls hypervisor.StopVM with force false; when that fails Stop returns
exactly that error and store.Destroy is not called; when it succeeds store.Destroy is
called once with the id of the VM and Stop returns what Destroy returned. -/
theorem Stop_stops_then_destroys (v : VM) (stopVM destroy : Option GoError) (w : World) :
    (∀ err, stopVM = some err →
      (v.Stop stopVM destroy w).err = some err ∧
      (v.Stop stopVM destroy w).world.trace = w.trace ++ [Call.StopVM v.hypervisor false]) ∧
    (stopVM = none →
      (v.Stop stopVM destroy w).err = destroy ∧
      (v.Stop stopVM destroy w).world.trace =
        w.trace ++ [Call.StopVM v.hypervisor false, Call.Destroy v.store v.id]) ∧
    (v.Stop stopVM destroy w).vm = v := by
  refine ⟨?_, ?_, ?_⟩
  · intro err h
    subst h
    simp [VM.Stop, World.call]
  · intro h
    subst h
    simp [VM.Stop, World.call]
  · cases stopVM <;> simp [VM.Stop]

/-- The two branches of Stop at a concrete VM: a failing StopVM, and a succeeding StopVM
followed by a failing Destroy. -/
theorem Stop_stops_then_destroys_witness :
    ((sampleVM.Stop (some "stop failed") none World.empty).err = some "stop failed" ∧
      (sampleVM.Stop (some "stop failed") none World.empty).world.trace =
        [Call.StopVM 1 false]) ∧
    ((sampleVM.Stop none (some "busy") World.empty).err = some "busy" ∧
      (sampleVM.Stop none (some "busy") World.empty).world.trace =
        [Call.StopVM 1 false, Call.Destroy 3 "vm-1"]) :=
  ⟨(Stop_stops_then_destroys sampleVM (some "stop failed") none World.empty).1 "stop failed" rfl,
   (Stop_stops_then_destroys sampleVM none (some "busy") World.empty).2.1 rfl⟩

/-- C9: AddCPUs(0) and AddMemory(0) return nil, reach no collaborator (the world, hence
the trace of calls, is the one before) and leave the VM as it was, whatever the hypervisor
would have answered. -/
theorem AddCPUs_AddMemory_zero (v : VM) (hotplug : Option GoError) (w : World) :
    v.AddCPUs 0 hotplug w = ⟨none, v, w⟩ ∧ v.AddMemory 0 hotplug w = ⟨none, v, w⟩ := by
  simp [VM.AddCPUs, VM.AddMemory]

/-- C8, as the code has it: for n > 0 and a succeeding hotplug, AddCPUs returns nil, makes
exactly one HotplugAddDevice(n, CpuDev) call, and cpu and cpuDelta both become the old
value plus n reduced modulo 2^32, which is the old value plus n whenever that fits a
uint32; every other field keeps its value. -/
theorem AddCPUs_success (v : VM) (n : Nat) (w : World) (hn : 0 < n) :
    (v.AddCPUs n none w).err = none ∧
    (v.AddCPUs n none w).world.trace =
      w.trace ++ [Call.HotplugAddDevice v.hypervisor (Device.cpus n) DeviceType.CpuDev] ∧
    (v.AddCPUs n none w).world.fs = w.fs ∧
    (v.AddCPUs n none w).vm =
      { v with cpu := (v.cpu + n) % 2 ^ 32, cpuDelta := (v.cpuDelta + n) % 2 ^ 32 } ∧
    (v.cpu + n < 2 ^ 32 → (v.AddCPUs n none w).vm.cpu = v.cpu + n) ∧
    (v.cpuDelta + n < 2 ^ 32 → (v.AddCPUs n none w).vm.cpuDelta = v.cpuDelta + n) := by
  have hpos : n > 0 := hn
  refine ⟨?_, ?_, ?_, ?_, ?_, ?_⟩
  · simp [VM.AddCPUs, hpos]
  · simp [VM.AddCPUs, hpos, World.call]
  · simp [VM.AddCPUs, hpos, World.call]
  · simp [VM.AddCPUs, hpos, u32]
  · intro h
    have h2 : v.cpu + n < 4294967296 := by omega
    simp [VM.AddCPUs, hpos, u32, Nat.mod_eq_of_lt h2]
  · intro h
    have h2 : v.cpuDelta + n < 4294967296 := by omega
    simp [VM.AddCPUs, hpos, u32, Nat.mod_eq_of_lt h2]

/-- Hot-adding two vCPUs to a VM with four: six vCPUs, two of them outstanding. -/
theorem AddCPUs_success_witness :
    0 < 2 ∧ (sampleVM.AddCPUs 2 none World.empty).vm.cpu = 4 + 2 ∧
      (sampleVM.AddCPUs 2 none World.empty).vm.cpuDelta = 0 + 2 :=
  ⟨by decide,
   (AddCPUs_success sampleVM 2 World.empty (by decide)).2.2.2.2.1 (by decide),
   (AddCPUs_success sampleVM 2 World.empty (by decide)).2.2.2.2.2 (by decide)⟩

/-- C8 as stated fails where the counter is full: one vCPU hot-added with success to a VM
whose cpu is 4294967295 leaves cpu at 0, not at 4294967296. -/
theorem AddCPUs_wraps_at_uint32 :
    (fullVM.AddCPUs 1 none World.empty).err = none ∧
    (fullVM.AddCPUs 1 none World.empty).vm.cpu = 0 ∧
    ¬ ((fullVM.AddCPUs 1 none World.empty).vm.cpu = fullVM.cpu + 1) := by
  simp [VM.AddCPUs, fullVM, u32]

/-- C6, the code at a concrete VM: after two vCPUs were hot-added to a VM with four, the
outstanding delta is 2, and OnlineCPUMemory hands the agent the count 6 (the field cpu),
not 2 (the field cpuDelta). -/
theorem OnlineCPUMemory_passes_cpu :
    (sampleVM.AddCPUs 2 none World.empty).vm.cpuDelta = 2 ∧
    ((sampleVM.AddCPUs 2 none World.empty).vm.OnlineCPUMemory none World.empty).world.trace =
      [Call.onlineCPUMem 2 6 false] ∧
    ((sampleVM.AddCPUs 2 none World.empty).vm.OnlineCPUMemory none World.empty).world.trace ≠
      [Call.onlineCPUMem 2 2 false] := by
  simp [VM.AddCPUs, VM.OnlineCPUMemory, sampleVM, u32, World.call, World.empty]

/-! ## The outstanding vCPU delta over sequences of calls -/

/-- A successful OnlineCPUMemory starts the window afresh. -/
theorem sinceLastOnline_online (acc rest : List (VMOp × Option GoError)) (o : Option GoError) :
    sinceLastOnline acc ((VMOp.OnlineCPUMemory o, none) :: rest) = sinceLastOnline [] rest := by
  simp [sinceLastOnline]

/-- A failed call stays in the window. -/
theorem sinceLastOnline_failed (acc rest : List (VMOp × Option GoError)) (op : VMOp)
    (e : GoError) :
    sinceLastOnline acc ((op, some e) :: rest) = sinceLastOnline (acc ++ [(op, some e)]) rest := by
  cases op <;> simp [sinceLastOnline]

/-- An AddCPUs call stays in the window. -/
theorem sinceLastOnline_addCPUs (acc rest : List (VMOp × Option GoError)) (n : Nat)
    (o r : Option GoError) :
    sinceLastOnline acc ((VMOp.AddCPUs n o, r) :: rest) =
      sinceLastOnline (acc ++ [(VMOp.AddCPUs n o, r)]) rest := by
  cases r <;> simp [sinceLastOnline]

/-- An AddMemory call stays in the window. -/
theorem sinceLastOnline_addMemory (acc rest : List (VMOp × Option GoError)) (n : Nat)
    (o r : Option GoError) :
    sinceLastOnline acc ((VMOp.AddMemory n o, r) :: rest) =
      sinceLastOnline (acc ++ [(VMOp.AddMemory n o, r)]) rest := by
  cases r <;> simp [sinceLastOnline]

/-- Invariant of a run: if cpuDelta agrees, modulo 2^32, with the vCPUs added in the window
collected so far, it still does at the end of the run. -/
theorem run_cpuDelta_window (ops : List VMOp) :
    ∀ (v : VM) (w : World) (acc : List (VMOp × Option GoError)),
      v.cpuDelta = (acc.map addedCPUs).sum % 2 ^ 32 →
      (v.run w ops).vm.cpuDelta =
        ((sinceLastOnline acc (v.run w ops).history).map addedCPUs).sum % 2 ^ 32 := by
  induction ops with
  | nil =>
    intro v w acc h
    simpa [VM.run, sinceLastOnline] using h
  | cons op ops ih =>
    intro v w acc h
    cases op with
    | AddCPUs num hotplug =>
      simp only [VM.run, VM.step, sinceLastOnline_addCPUs]
      apply ih
      by_cases hn : num > 0
      · cases hotplug with
        | none =>
          simp only [VM.AddCPUs, hn, if_true, u32, List.map_append, List.sum_append,
            List.map_cons, List.map_nil, List.sum_cons, List.sum_nil, addedCPUs, h]
          omega
        | some e =>
          simp only [VM.AddCPUs, hn, if_true, List.map_append, List.sum_append,
            List.map_cons, List.map_nil, List.sum_cons, List.sum_nil, addedCPUs, h]
          simp
      · have h0 : num = 0 := by omega
        subst h0
        simp [VM.AddCPUs, addedCPUs, h]
    | AddMemory numMB hotplug =>
      simp only [VM.run, VM.step, sinceLastOnline_addMemory]
      apply ih
      by_cases hn : numMB > 0
      · cases hotplug <;> simp [VM.AddMemory, hn, addedCPUs, h]
      · simp [VM.AddMemory, hn, addedCPUs, h]
    | OnlineCPUMemory online =>
      cases online with
      | none =>
        simp only [VM.run, VM.step, VM.OnlineCPUMemory, sinceLastOnline_online]
        apply ih
        simp
      | some e =>
        simp only [VM.run, VM.step, VM.OnlineCPUMemory, sinceLastOnline_failed]
        apply ih
        simp [addedCPUs, h]

/-- The history of a run lists the calls in the order they were made. -/
theorem run_history_ops (ops : List VMOp) :
    ∀ (v : VM) (w : World), (v.run w ops).history.map Prod.fst = ops := by
  induction ops with
  | nil => intro v w; simp [VM.run]
  | cons op ops ih => intro v w; simp [VM.run, ih]

/-- C7, as the code has it: starting from cpuDelta = 0, after any sequence of AddCPUs,
AddMemory and OnlineCPUMemory calls with any outcomes, cpuDelta is the sum of the arguments
of the AddCPUs calls that succeeded since the last successful OnlineCPUMemory, reduced
modulo 2^32 (so it is that sum whenever the sum fits a uint32).  A successful
OnlineCPUMemory leaves cpuDelta at 0, a failed one returns the error of the agent and
keeps cpuDelta, and a failed AddCPUs returns the hotplug error and keeps cpu and
cpuDelta. -/
theorem cpuDelta_tracks_outstanding (v : VM) (w : World) (ops : List VMOp)
    (h0 : v.cpuDelta = 0) :
    (v.run w ops).history.map Prod.fst = ops ∧
    (v.run w ops).vm.cpuDelta = outstandingCPUs (v.run w ops).history % 2 ^ 32 ∧
    (outstandingCPUs (v.run w ops).history < 2 ^ 32 →
      (v.run w ops).vm.cpuDelta = outstandingCPUs (v.run w ops).history) ∧
    (∀ (u : VM) (x : World),
      (u.OnlineCPUMemory none x).err = none ∧ (u.OnlineCPUMemory none x).vm.cpuDelta = 0) ∧
    (∀ (u : VM) (x : World) (e : GoError),
      (u.OnlineCPUMemory (some e) x).err = some e ∧
      (u.OnlineCPUMemory (some e) x).vm.cpuDelta = u.cpuDelta) ∧
    (∀ (u : VM) (x : World) (n : Nat) (e : GoError), 0 < n →
      (u.AddCPUs n (some e) x).err = some e ∧
      (u.AddCPUs n (some e) x).vm.cpu = u.cpu ∧
      (u.AddCPUs n (some e) x).vm.cpuDelta = u.cpuDelta) := by
  have hmain : (v.run w ops).vm.cpuDelta = outstandingCPUs (v.run w ops).history % 2 ^ 32 :=
    run_cpuDelta_window ops v w [] (by simp [h0])
  refine ⟨run_history_ops ops v w, hmain, ?_, ?_, ?_, ?_⟩
  · intro hlt
    rw [hmain]
    exact Nat.mod_eq_of_lt hlt
  · intro u x
    simp [VM.OnlineCPUMemory]
  · intro u x e
    simp [VM.OnlineCPUMemory]
  · intro u x n e hn
    have hpos : n > 0 := hn
    simp [VM.AddCPUs, hpos]

/-- A mixed run on a VM with four vCPUs: two added, onlining fails, three more added, a
hotplug of five fails, memory is added; five vCPUs are outstanding at the end. -/
theorem cpuDelta_tracks_outstanding_witness :
    sampleVM.cpuDelta = 0 ∧
    (sampleVM.run World.empty
      [VMOp.AddCPUs 2 none, VMOp.OnlineCPUMemory (some "agent down"), VMOp.AddCPUs 3 none,
        VMOp.AddCPUs 5 (some "no slot"), VMOp.AddMemory 64 none]).vm.cpuDelta = 5 := by
  have h := cpuDelta_tracks_outstanding sampleVM World.empty
    [VMOp.AddCPUs 2 none, VMOp.OnlineCPUMemory (some "agent down"), VMOp.AddCPUs 3 none,
      VMOp.AddCPUs 5 (some "no slot"), VMOp.AddMemory 64 none] rfl
  refine ⟨rfl, ?_⟩
  rw [h.2.1]
  simp [VM.run, VM.step, VM.AddCPUs, VM.AddMemory, VM.OnlineCPUMemory, outstandingCPUs,
    sinceLastOnline, addedCPUs]

/-- C7 as stated fails where the sum leaves the uint32 range: after two successful AddCPUs
calls, of 4294967295 and of 1 vCPUs, on a VM with cpuDelta = 0 and no OnlineCPUMemory in
between, the sum of the arguments is 4294967296 while cpuDelta is 0. -/
theorem cpuDelta_wraps_at_uint32 :
    sampleVM.cpuDelta = 0 ∧
    (sampleVM.run World.empty [VMOp.AddCPUs 4294967295 none, VMOp.AddCPUs 1 none]).history =
      [(VMOp.AddCPUs 4294967295 none, none), (VMOp.AddCPUs 1 none, none)] ∧
    outstandingCPUs
      (sampleVM.run World.empty [VMOp.AddCPUs 4294967295 none, VMOp.AddCPUs 1 none]).history =
        4294967296 ∧
    (sampleVM.run World.empty [VMOp.AddCPUs 4294967295 none, VMOp.AddCPUs 1 none]).vm.cpuDelta
      = 0 ∧
    (sampleVM.run World.empty [VMOp.AddCPUs 4294967295 none, VMOp.AddCPUs 1 none]).vm.cpuDelta ≠
      outstandingCPUs
        (sampleVM.run World.empty [VMOp.AddCPUs 4294967295 none, VMOp.AddCPUs 1 none]).history := by
  simp [VM.run, VM.step, VM.AddCPUs, outstandingCPUs, sinceLastOnline, addedCPUs, sampleVM, u32]

/-! ## Sandbox assignment -/

/-- The test of the virtio-fs branch, as a statement about the mode string. -/
theorem isVirtioFS_iff (sharedFS : String) :
    isVirtioFS sharedFS = true ↔ sharedFS = "virtio-fs" ∨ sharedFS = "virtio-fs-nydus" := by
  simp [isVirtioFS]

/-- Recording a call does not touch the symlink table. -/
theorem hasLink_call (w : World) (c : Call) (path : String) :
    (w.call c).hasLink path = w.hasLink path := by
  simp [World.call, World.hasLink]

/-- C1: with a virtio-fs variant as SharedFS and the agent reused, a failure of
fsShare.Prepare, of StartVirtiofsDaemon or of the vhost-user HotplugAddDevice makes
assignSandbox return a non-nil error with that call as its last one: no later step runs
(after a Prepare failure no daemon is started and no device hot-plugged, and in all three
cases no symlink is removed or created, the symlink table being the one before), and the
hypervisor handle and the VMid of the sandbox keep their values. -/
theorem assignSandbox_fatal_failures (d : Deps) (o : AssignOutcomes) (v : VM) (s : Sandbox)
    (w : World)
    (hfs : s.config.HypervisorConfig.SharedFS = "virtio-fs" ∨
      s.config.HypervisorConfig.SharedFS = "virtio-fs-nydus")
    (hreuse : o.reuseAgent = none) :
    (∀ e, o.Prepare = some e →
      (v.assignSandbox d o s w).err =
        some (errorfW "failed to prepare sandbox filesystem share" e) ∧
      (v.assignSandbox d o s w).world.trace =
        w.trace ++ [Call.reuseAgent s.agent v.agent, Call.StopVirtiofsDaemon v.hypervisor,
          Call.Cleanup s.fsShare, Call.Prepare s.fsShare] ∧
      (v.assignSandbox d o s w).world.fs = w.fs ∧
      (v.assignSandbox d o s w).sandbox = s) ∧
    (∀ e, o.Prepare = none → o.StartVirtiofsDaemon = some e →
      (v.assignSandbox d o s w).err =
        some (errorfW "failed to start virtiofsd for sandbox" e) ∧
      (v.assignSandbox d o s w).world.trace =
        w.trace ++ [Call.reuseAgent s.agent v.agent, Call.StopVirtiofsDaemon v.hypervisor,
          Call.Cleanup s.fsShare, Call.Prepare s.fsShare,
          Call.StartVirtiofsDaemon v.hypervisor (d.GetSharePath s.id)] ∧
      (v.assignSandbox d o s w).world.fs = w.fs ∧
      (v.assignSandbox d o s w).sandbox.hypervisor = s.hypervisor ∧
      (v.assignSandbox d o s w).sandbox.config.HypervisorConfig.VMid =
        s.config.HypervisorConfig.VMid) ∧
    (∀ e p bs, o.Prepare = none → o.StartVirtiofsDaemon = none →
      d.BuildSocketPath [s.config.HypervisorConfig.VMStorePath, v.id, "vhost-fs.sock"] = .ok p →
      o.GenerateRandomBytes = .ok bs → o.HotplugAddDevice = some e →
      (v.assignSandbox d o s w).err =
        some (errorfW "failed to hot-plug VirtioFS device" e) ∧
      (v.assignSandbox d o s w).world.trace =
        w.trace ++ [Call.reuseAgent s.agent v.agent, Call.StopVirtiofsDaemon v.hypervisor,
          Call.Cleanup s.fsShare, Call.Prepare s.fsShare,
          Call.StartVirtiofsDaemon v.hypervisor (d.GetSharePath s.id),
          Call.HotplugAddDevice v.hypervisor
            (Device.vhostUser
              { DevID := hexEncodeToString bs, SocketPath := p, Typ := .VhostUserFS,
                Tag := mountGuestTag,
                CacheSize := s.config.HypervisorConfig.VirtioFSCacheSize,
                Cache := s.config.HypervisorConfig.VirtioFSCache,
                QueueSize := s.config.HypervisorConfig.VirtioFSQueueSize })
            DeviceType.VhostuserDev] ∧
      (v.assignSandbox d o s w).world.fs = w.fs ∧
      (v.assignSandbox d o s w).sandbox.hypervisor = s.hypervisor ∧
      (v.assignSandbox d o s w).sandbox.config.HypervisorConfig.VMid =
        s.config.HypervisorConfig.VMid) := by
  have hv : isVirtioFS s.config.HypervisorConfig.SharedFS = true := (isVirtioFS_iff _).2 hfs
  refine ⟨?_, ?_, ?_⟩
  · intro e hP
    simp [VM.assignSandbox, VM.hotplugVirtioFS, hv, hreuse, hP, World.call]
  · intro e hP hS
    simp [VM.assignSandbox, VM.hotplugVirtioFS, hv, hreuse, hP, hS, World.call]
  · intro e p bs hP hS hB hR hH
    simp [VM.assignSandbox, VM.hotplugVirtioFS, hv, hreuse, hP, hS, hB, hR, hH, World.call]

/-- The three fatal failures at a concrete virtio-fs sandbox. -/
theorem assignSandbox_fatal_failures_witness :
    ((sampleSandbox "virtio-fs").config.HypervisorConfig.SharedFS = "virtio-fs" ∨
      (sampleSandbox "virtio-fs").config.HypervisorConfig.SharedFS = "virtio-fs-nydus") ∧
    (sampleVM.assignSandbox sampleDeps assignPrepareFails (sampleSandbox "virtio-fs")
      World.empty).err = some (errorfW "failed to prepare sandbox filesystem share" "mount failed") ∧
    (sampleVM.assignSandbox sampleDeps assignStartFails (sampleSandbox "virtio-fs")
      World.empty).err = some (errorfW "failed to start virtiofsd for sandbox" "virtiofsd not found") ∧
    (sampleVM.assignSandbox sampleDeps assignHotplugFails (sampleSandbox "virtio-fs")
      World.empty).err = some (errorfW "failed to hot-plug VirtioFS device" "qmp timeout") :=
  ⟨Or.inl rfl,
   ((assignSandbox_fatal_failures sampleDeps assignPrepareFails sampleVM
      (sampleSandbox "virtio-fs") World.empty (Or.inl rfl) rfl).1 "mount failed" rfl).1,
   ((assignSandbox_fatal_failures sampleDeps assignStartFails sampleVM
      (sampleSandbox "virtio-fs") World.empty (Or.inl rfl) rfl).2.1
        "virtiofsd not found" rfl rfl).1,
   ((assignSandbox_fatal_failures sampleDeps assignHotplugFails sampleVM
      (sampleSandbox "virtio-fs") World.empty (Or.inl rfl) rfl).2.2
        "qmp timeout" _ _ rfl rfl rfl rfl rfl).1⟩

/-- C3: with a virtio-fs variant as SharedFS, when reuseAgent, Prepare,
StartVirtiofsDaemon, the device hotplug (hence also the socket path and the random device
id it needs) and both symlink creations succeed, assignSandbox returns nil and its calls
are, in this order and whatever StopVirtiofsDaemon and Cleanup answer: reuseAgent,
StopVirtiofsDaemon, Cleanup, Prepare, StartVirtiofsDaemon at GetSharePath(sandbox id),
HotplugAddDevice of kind VhostuserDev with the socket path, the generated id and the
cache, cache size and queue size of the sandbox, the removal of both old symlinks, the
creation of the share symlink, the creation of the socket-directory symlink.  On return
the sandbox holds the hypervisor of the VM, the id of the VM as VMid, and
GetSharePath(sandbox id) as SharedPath. -/
theorem assignSandbox_virtiofs_order (d : Deps) (o : AssignOutcomes) (v : VM) (s : Sandbox)
    (w : World) (p : String) (bs : List Nat)
    (hfs : s.config.HypervisorConfig.SharedFS = "virtio-fs" ∨
      s.config.HypervisorConfig.SharedFS = "virtio-fs-nydus")
    (hreuse : o.reuseAgent = none) (hP : o.Prepare = none)
    (hS : o.StartVirtiofsDaemon = none)
    (hB : d.BuildSocketPath [s.config.HypervisorConfig.VMStorePath, v.id, "vhost-fs.sock"]
      = .ok p)
    (hR : o.GenerateRandomBytes = .ok bs) (hH : o.HotplugAddDevice = none)
    (h1 : o.SymlinkShare = none) (h2 : o.SymlinkSock = none) :
    (v.assignSandbox d o s w).err = none ∧
    (v.assignSandbox d o s w).world.trace =
      w.trace ++ [Call.reuseAgent s.agent v.agent, Call.StopVirtiofsDaemon v.hypervisor,
        Call.Cleanup s.fsShare, Call.Prepare s.fsShare,
        Call.StartVirtiofsDaemon v.hypervisor (d.GetSharePath s.id),
        Call.HotplugAddDevice v.hypervisor
          (Device.vhostUser
            { DevID := hexEncodeToString bs, SocketPath := p, Typ := .VhostUserFS,
              Tag := mountGuestTag,
              CacheSize := s.config.HypervisorConfig.VirtioFSCacheSize,
              Cache := s.config.HypervisorConfig.VirtioFSCache,
              QueueSize := s.config.HypervisorConfig.VirtioFSQueueSize })
          DeviceType.VhostuserDev,
        Call.RemoveAll (sbSharePath d s), Call.RemoveAll (sbSockDir d v s),
        Call.Symlink (vmSharePath d v) (sbSharePath d s),
        Call.Symlink (vmSockDir d v) (sbSockDir d v s)] ∧
    (v.assignSandbox d o s w).sandbox.hypervisor = v.hypervisor ∧
    (v.assignSandbox d o s w).sandbox.config.HypervisorConfig.VMid = v.id ∧
    (v.assignSandbox d o s w).sandbox.config.HypervisorConfig.SharedPath =
      d.GetSharePath s.id := by
  have hv : isVirtioFS s.config.HypervisorConfig.SharedFS = true := (isVirtioFS_iff _).2 hfs
  simp [VM.assignSandbox, VM.hotplugVirtioFS, VM.rewireSymlinks, hv, hreuse, hP, hS, hB, hR,
    hH, h1, h2, World.call, World.link, World.unlink]

/-- The handoff of a cached VM to a virtio-fs sandbox whose old daemon cannot be stopped
and whose old share cannot be cleaned up: the handoff still succeeds and binds the VM. -/
theorem assignSandbox_virtiofs_order_witness :
    assignBestEffortFails.StopVirtiofsDaemon = some "no daemon" ∧
    assignBestEffortFails.Cleanup = some "not mounted" ∧
    (sampleVM.assignSandbox sampleDeps assignBestEffortFails (sampleSandbox "virtio-fs-nydus")
      World.empty).err = none ∧
    (sampleVM.assignSandbox sampleDeps assignBestEffortFails (sampleSandbox "virtio-fs-nydus")
      World.empty).sandbox.hypervisor = sampleVM.hypervisor ∧
    (sampleVM.assignSandbox sampleDeps assignBestEffortFails (sampleSandbox "virtio-fs-nydus")
      World.empty).sandbox.config.HypervisorConfig.VMid = sampleVM.id :=
  ⟨rfl, rfl,
   (assignSandbox_virtiofs_order sampleDeps assignBestEffortFails sampleVM
      (sampleSandbox "virtio-fs-nydus") World.empty _ _ (Or.inr rfl) rfl rfl rfl rfl rfl rfl
      rfl rfl).1,
   (assignSandbox_virtiofs_order sampleDeps assignBestEffortFails sampleVM
      (sampleSandbox "virtio-fs-nydus") World.empty _ _ (Or.inr rfl) rfl rfl rfl rfl rfl rfl
      rfl rfl).2.2.1,
   (assignSandbox_virtiofs_order sampleDeps assignBestEffortFails sampleVM
      (sampleSandbox "virtio-fs-nydus") World.empty _ _ (Or.inr rfl) rfl rfl rfl rfl rfl rfl
      rfl rfl).2.2.2.1⟩

/-- C11 as stated fails when the hypervisor type is unknown: validation rejects the
configuration, yet NewVM returns the error of NewHypervisor, which it calls before it
validates, and not the validation error. -/
theorem NewVM_invalid_config_other_error :
    sampleVMConfig.Valid rejectingDeps = some "invalid hypervisor config" ∧
    (NewVM rejectingDeps newVMNoHypervisor sampleVMConfig World.empty).vm = none ∧
    (NewVM rejectingDeps newVMNoHypervisor sampleVMConfig World.empty).err =
      some "Unknown hypervisor type" ∧
    (NewVM rejectingDeps newVMNoHypervisor sampleVMConfig World.empty).err ≠
      sampleVMConfig.Valid rejectingDeps := by
  simp [NewVM, newVMNoHypervisor, newVMAllOk, rejectingDeps, VMConfig.Valid]

/-- C11, as the code has it: for a configuration that validation rejects, NewVM returns a
nil VM and a non-nil error, and the only calls it makes are NewHypervisor and NewNetwork:
no CreateVM, no agent configuration, no StartVM, no store is obtained and none destroyed.
The error is the validation error whenever NewHypervisor and NewNetwork, which run before
the validation, succeed; otherwise it is the error of the one that failed, NewHypervisor
being the only call made when it fails and NewNetwork the last one when it fails. -/
theorem NewVM_invalid_config (d : Deps) (o : NewVMOutcomes) (config : VMConfig) (w : World)
    (e : GoError) (hV : config.Valid d = some e) :
    (NewVM d o config w).vm = none ∧
    (NewVM d o config w).err ≠ none ∧
    (∀ c ∈ (NewVM d o config w).world.trace,
      c ∈ w.trace ∨ c = Call.NewHypervisor config.HypervisorType ∨ c = Call.NewNetwork) ∧
    (∀ h n, o.NewHypervisor = .ok h → o.NewNetwork = .ok n →
      (NewVM d o config w).err = some e ∧
      (NewVM d o config w).world.trace =
        w.trace ++ [Call.NewHypervisor config.HypervisorType, Call.NewNetwork]) ∧
    (∀ e1, o.NewHypervisor = .error e1 →
      (NewVM d o config w).err = some e1 ∧
      (NewVM d o config w).world.trace =
        w.trace ++ [Call.NewHypervisor config.HypervisorType]) ∧
    (∀ h e2, o.NewHypervisor = .ok h → o.NewNetwork = .error e2 →
      (NewVM d o config w).err = some e2 ∧
      (NewVM d o config w).world.trace =
        w.trace ++ [Call.NewHypervisor config.HypervisorType, Call.NewNetwork]) := by
  refine ⟨?_, ?_, ?_, ?_, ?_, ?_⟩
  · rcases hh : o.NewHypervisor with e1 | h <;> rcases hn : o.NewNetwork with e2 | n <;>
      simp [NewVM, hh, hn, hV]
  · rcases hh : o.NewHypervisor with e1 | h <;> rcases hn : o.NewNetwork with e2 | n <;>
      simp [NewVM, hh, hn, hV]
  · rcases hh : o.NewHypervisor with e1 | h <;> rcases hn : o.NewNetwork with e2 | n <;>
      simp [NewVM, hh, hn, hV, World.call] <;> tauto
  · intro h n hh hn
    simp [NewVM, hh, hn, hV, World.call]
  · intro e1 hh
    simp [NewVM, hh, World.call]
  · intro h e2 hh hn
    simp [NewVM, hh, hn, World.call]

/-- A rejected configuration with working constructors: the validation error comes back
after exactly the two constructor calls. -/
theorem NewVM_invalid_config_witness :
    sampleVMConfig.Valid rejectingDeps = some "invalid hypervisor config" ∧
    (NewVM rejectingDeps newVMAllOk sampleVMConfig World.empty).vm = none ∧
    (NewVM rejectingDeps newVMAllOk sampleVMConfig World.empty).err =
      some "invalid hypervisor config" ∧
    (NewVM rejectingDeps newVMNoNetwork sampleVMConfig World.empty).err =
      some "netlink unavailable" :=
  ⟨rfl,
   (NewVM_invalid_config rejectingDeps newVMAllOk sampleVMConfig World.empty
      "invalid hypervisor config" rfl).1,
   ((NewVM_invalid_config rejectingDeps newVMAllOk sampleVMConfig World.empty
      "invalid hypervisor config" rfl).2.2.2.1 1 5 rfl rfl).1,
   ((NewVM_invalid_config rejectingDeps newVMNoNetwork sampleVMConfig World.empty
      "invalid hypervisor config" rfl).2.2.2.2.2 1 "netlink unavailable" rfl rfl).1⟩

/-! ## The VM descriptor -/

/-- C18: when the hypervisor serializes to blob, ToGrpc returns the descriptor made of the
id, the blob, cpu, memory and cpuDelta of the VM; and whenever NewVMFromGrpc succeeds on
that descriptor, the VM it returns has the same id, cpu, memory and cpuDelta, and
NewVMFromGrpc has called neither StartVM nor the liveness check (it never does, whatever
its outcome). -/
theorem VM_descriptor_round_trip (d : Deps) (o : NewVMFromGrpcOutcomes) (v : VM)
    (config config2 : VMConfig) (blob : List Nat) (w w2 : World)
    (hok : (NewVMFromGrpc d o ⟨v.id, blob, v.cpu, v.memory, v.cpuDelta⟩ config2 w2).err = none) :
    (v.ToGrpc config (.ok blob) w).err = none ∧
    (v.ToGrpc config (.ok blob) w).desc = some ⟨v.id, blob, v.cpu, v.memory, v.cpuDelta⟩ ∧
    (∃ v2, (NewVMFromGrpc d o ⟨v.id, blob, v.cpu, v.memory, v.cpuDelta⟩ config2 w2).vm = some v2 ∧
      v2.id = v.id ∧ v2.cpu = v.cpu ∧ v2.memory = v.memory ∧ v2.cpuDelta = v.cpuDelta) ∧
    (∀ (g : GrpcVM) (o2 : NewVMFromGrpcOutcomes),
      (NewVMFromGrpc d o2 g config2 w2).world.trace.filter Call.isBoot =
        w2.trace.filter Call.isBoot) := by
  refine ⟨?_, ?_, ?_, ?_⟩
  · simp [VM.ToGrpc]
  · simp [VM.ToGrpc]
  · revert hok
    rcases hh : o.NewHypervisor with e1 | h <;> rcases hd : o.GetDriver with e2 | st <;>
      rcases hf : o.fromGrpc with _ | e3 <;> rcases hs : o.setAgentURL with _ | e4 <;>
      simp [NewVMFromGrpc, hh, hd, hf, hs]
  · intro g o2
    rcases hh : o2.NewHypervisor with e1 | h <;> rcases hd : o2.GetDriver with e2 | st <;>
      rcases hf : o2.fromGrpc with _ | e3 <;> rcases hs : o2.setAgentURL with _ | e4 <;>
      simp [NewVMFromGrpc, NewVMFromGrpc.deferDestroy, hh, hd, hf, hs, World.call, Call.isBoot,
        List.filter_append]

/-- A VM with two outstanding vCPUs survives the round trip through its descriptor. -/
theorem VM_descriptor_round_trip_witness :
    (NewVMFromGrpc sampleDeps fromGrpcAllOk
      ⟨grownVM.id, [1, 2, 3], grownVM.cpu, grownVM.memory, grownVM.cpuDelta⟩
      sampleVMConfig World.empty).err = none ∧
    (grownVM.ToGrpc sampleVMConfig (.ok [1, 2, 3]) World.empty).desc =
      some ⟨grownVM.id, [1, 2, 3], grownVM.cpu, grownVM.memory, grownVM.cpuDelta⟩ ∧
    (∃ v2, (NewVMFromGrpc sampleDeps fromGrpcAllOk
        ⟨grownVM.id, [1, 2, 3], grownVM.cpu, grownVM.memory, grownVM.cpuDelta⟩
        sampleVMConfig World.empty).vm = some v2 ∧
      v2.id = grownVM.id ∧ v2.cpu = grownVM.cpu ∧ v2.memory = grownVM.memory ∧
      v2.cpuDelta = grownVM.cpuDelta) :=
  ⟨rfl,
   (VM_descriptor_round_trip sampleDeps fromGrpcAllOk grownVM sampleVMConfig sampleVMConfig
      [1, 2, 3] World.empty World.empty rfl).2.1,
   (VM_descriptor_round_trip sampleDeps fromGrpcAllOk grownVM sampleVMConfig sampleVMConfig
      [1, 2, 3] World.empty World.empty rfl).2.2.1⟩

/-- C19: AddMemory leaves the VM as it was, for every argument and every answer of the
hypervisor: memory, cpu and cpuDelta keep their values, so GetVMStatus and ToGrpc report
the same memory size as before the call.  For numMB > 0 the call makes exactly one
HotplugAddDevice of kind MemoryDev with a single device of numMB MB and returns what the
hypervisor answered. -/
theorem AddMemory_keeps_memory (v : VM) (numMB : Nat) (hotplug : Option GoError) (w : World) :
    (v.AddMemory numMB hotplug w).vm = v ∧
    (∀ pid, ((v.AddMemory numMB hotplug w).vm.GetVMStatus pid).Memory = v.memory ∧
      (v.AddMemory numMB hotplug w).vm.GetVMStatus pid = v.GetVMStatus pid) ∧
    (∀ config toGrpc w2, (v.AddMemory numMB hotplug w).vm.ToGrpc config toGrpc w2 =
      v.ToGrpc config toGrpc w2) ∧
    (∀ config blob w2, ((v.AddMemory numMB hotplug w).vm.ToGrpc config (.ok blob) w2).desc =
      some ⟨v.id, blob, v.cpu, v.memory, v.cpuDelta⟩) ∧
    (0 < numMB →
      (v.AddMemory numMB hotplug w).err = hotplug ∧
      (v.AddMemory numMB hotplug w).world.trace =
        w.trace ++ [Call.HotplugAddDevice v.hypervisor
          (Device.memory { Slot := 1, SizeMB := numMB, Addr := 0, Probe := false })
          DeviceType.MemoryDev]) := by
  have hvm : (v.AddMemory numMB hotplug w).vm = v := by
    by_cases hn : numMB > 0 <;> cases hotplug <;> simp [VM.AddMemory, hn]
  refine ⟨hvm, ?_, ?_, ?_, ?_⟩
  · intro pid
    rw [hvm]
    simp [VM.GetVMStatus]
  · intro config toGrpc w2
    rw [hvm]
  · intro config blob w2
    rw [hvm]
    simp [VM.ToGrpc]
  · intro hn
    have hpos : numMB > 0 := hn
    cases hotplug <;> simp [VM.AddMemory, hpos, World.call]

/-- A failing hot-add of 512 MB on a VM with 2048 MB: the error comes back and the
recorded size stays 2048. -/
theorem AddMemory_keeps_memory_witness :
    0 < 512 ∧
    (sampleVM.AddMemory 512 (some "no free slot") World.empty).err = some "no free slot" ∧
    (sampleVM.AddMemory 512 (some "no free slot") World.empty).vm = sampleVM ∧
    (((sampleVM.AddMemory 512 none World.empty).vm.GetVMStatus 4242).Memory = sampleVM.memory ∧
      (sampleVM.AddMemory 512 none World.empty).vm.GetVMStatus 4242 =
        sampleVM.GetVMStatus 4242) :=
  ⟨by decide,
   ((AddMemory_keeps_memory sampleVM 512 (some "no free slot") World.empty).2.2.2.2
      (by decide)).1,
   (AddMemory_keeps_memory sampleVM 512 (some "no free slot") World.empty).1,
   (AddMemory_keeps_memory sampleVM 512 none World.empty).2.1 4242⟩

/-! ## The netkit endpoint -/

/-- C12: for a negative index createNetkitNetworkEndpoint returns a non-nil error together
with a zero-valued endpoint (no field, NetPair and EndpointType included, is set) and does
not call createNetworkInterfacePair (the world is the one before), whatever the interface
name, the interworking model and the behaviour of the pair creation. -/
theorem createNetkitNetworkEndpoint_negative_index
    (createPair : Int → String → NetInterworkingModel → Except GoError NetworkInterfacePair)
    (idx : Int) (ifName : String) (interworkingModel : NetInterworkingModel) (w : World)
    (hidx : idx < 0) :
    (createNetkitNetworkEndpoint createPair idx ifName interworkingModel w).err =
      some ("invalid network endpoint index: " ++ toString idx) ∧
    (createNetkitNetworkEndpoint createPair idx ifName interworkingModel w).endpoint =
      some NetkitEndpoint.zero ∧
    (createNetkitNetworkEndpoint createPair idx ifName interworkingModel w).world = w := by
  simp [createNetkitNetworkEndpoint, hidx]

/-- The two failing inputs of the test of the source, index -1 with and without a name. -/
theorem createNetkitNetworkEndpoint_negative_index_witness :
    (-1 : Int) < 0 ∧
    (createNetkitNetworkEndpoint (createNetworkInterfacePair pairOk) (-1) "bar" 0
      World.empty).err = some ("invalid network endpoint index: " ++ toString (-1 : Int)) ∧
    (createNetkitNetworkEndpoint (createNetworkInterfacePair pairOk) (-1) "" 0
      World.empty).endpoint = some NetkitEndpoint.zero :=
  ⟨by decide,
   (createNetkitNetworkEndpoint_negative_index (createNetworkInterfacePair pairOk) (-1) "bar" 0
      World.empty (by decide)).1,
   (createNetkitNetworkEndpoint_negative_index (createNetworkInterfacePair pairOk) (-1) "" 0
      World.empty (by decide)).2.1⟩

/-- A decimal digit is not the path separator. -/
theorem digitChar_ne_separator (m : Nat) (h : m < 10) : Nat.digitChar m ≠ '/' := by
  interval_cases m <;> decide

/-- The decimal digits produced for a number contain no path separator. -/
theorem toDigitsCore_no_separator (fuel : Nat) :
    ∀ (n : Nat) (ds : List Char), (∀ c ∈ ds, c ≠ '/') →
      ∀ c ∈ Nat.toDigitsCore 10 fuel n ds, c ≠ '/' := by
  induction fuel with
  | zero =>
    intro n ds h
    simpa [Nat.toDigitsCore] using h
  | succ fuel ih =>
    intro n ds h
    have hd : Nat.digitChar (n % 10) ≠ '/' :=
      digitChar_ne_separator _ (Nat.mod_lt _ (by decide))
    have hcons : ∀ c ∈ Nat.digitChar (n % 10) :: ds, c ≠ '/' := by
      intro c hc
      rcases List.mem_cons.1 hc with rfl | hc
      · exact hd
      · exact h c hc
    simp only [Nat.toDigitsCore]
    split
    · exact hcons
    · exact ih _ _ hcons

/-- The decimal text of a non-negative index contains no path separator. -/
theorem index_text_no_separator (idx : Int) (h : 0 ≤ idx) : '/' ∉ (toString idx).toList := by
  obtain ⟨n, rfl⟩ := Int.eq_ofNat_of_zero_le h
  intro hmem
  have hall : ∀ c ∈ Nat.toDigits 10 n, c ≠ '/' :=
    toDigitsCore_no_separator _ _ _ (by simp)
  exact hall '/' hmem rfl

/-- The endpoint createNetkitNetworkEndpoint builds for a non-negative index when the pair
creation modelled from the spec succeeds. -/
theorem createNetkitNetworkEndpoint_value (o : PairOutcomes) (idx : Int) (ifName : String)
    (interworkingModel : NetInterworkingModel) (w : World) (mac : String)
    (hidx : 0 ≤ idx) (hmac : o.randomMacAddr = .ok mac) :
    createNetkitNetworkEndpoint (createNetworkInterfacePair o) idx ifName interworkingModel w =
      ⟨some
        { NetkitEndpoint.zero with
          EndpointType := NetkitEndpointType
          NetPair :=
            { TapInterface :=
                { ID := o.uniqueID
                  Name := "br" ++ toString idx ++ "_kata"
                  TAPIface :=
                    { Name := "tap" ++ toString idx ++ "_kata", HardAddr := "", Addrs := [] } }
              VirtIface :=
                { Name := if ifName = "" then "eth" ++ toString idx else ifName
                  HardAddr := mac, Addrs := [] }
              NetInterworkingModel := interworkingModel } },
       none, w.call (Call.createNetworkInterfacePair idx ifName interworkingModel)⟩ := by
  have hlt : ¬ idx < 0 := not_lt.mpr hidx
  by_cases hn : ifName = ""
  · simp [createNetkitNetworkEndpoint, createNetworkInterfacePair, hlt, hmac, hn]
  · simp [createNetkitNetworkEndpoint, createNetworkInterfacePair, hlt, hmac, hn]

/-- C13: for a non-negative index for which the pair creation succeeds,
createNetkitNetworkEndpoint returns, without error, an endpoint of type NetkitEndpointType
whose Name() is the supplied name when one is supplied and eth followed by the index
otherwise; that derived name contains no path separator and is the same for any two calls
with the same index.  The bridge and tap names are br and tap followed by the index and
_kata, whatever the name and the generated values, and PCI path, CCW device and both rate
limiters are unset. -/
theorem createNetkitNetworkEndpoint_names (o : PairOutcomes) (idx : Int) (ifName : String)
    (interworkingModel : NetInterworkingModel) (w : World) (mac : String)
    (hidx : 0 ≤ idx) (hmac : o.randomMacAddr = .ok mac) :
    (createNetkitNetworkEndpoint (createNetworkInterfacePair o) idx ifName interworkingModel
      w).err = none ∧
    ∃ ep, (createNetkitNetworkEndpoint (createNetworkInterfacePair o) idx ifName
        interworkingModel w).endpoint = some ep ∧
      ep.EndpointType = NetkitEndpointType ∧
      (ifName ≠ "" → ep.Name = ifName) ∧
      (ifName = "" → ep.Name = "eth" ++ toString idx ∧ '/' ∉ ep.Name.toList) ∧
      ep.NetPair.TapInterface.Name = "br" ++ toString idx ++ "_kata" ∧
      ep.NetPair.TapInterface.TAPIface.Name = "tap" ++ toString idx ++ "_kata" ∧
      ep.PCIPath = ⟨"", "", ""⟩ ∧ ep.CCWDevice = none ∧
      ep.RxRateLimiter = false ∧ ep.TxRateLimiter = false ∧
      (∀ (o2 : PairOutcomes) (model2 : NetInterworkingModel) (w2 : World) (mac2 : String),
        o2.randomMacAddr = .ok mac2 →
        ∃ ep2, (createNetkitNetworkEndpoint (createNetworkInterfacePair o2) idx ifName model2
            w2).endpoint = some ep2 ∧
          ep2.Name = ep.Name ∧
          ep2.NetPair.TapInterface.Name = ep.NetPair.TapInterface.Name ∧
          ep2.NetPair.TapInterface.TAPIface.Name = ep.NetPair.TapInterface.TAPIface.Name) := by
  rw [createNetkitNetworkEndpoint_value o idx ifName interworkingModel w mac hidx hmac]
  refine ⟨rfl, _, rfl, rfl, ?_, ?_, rfl, rfl, rfl, rfl, rfl, rfl, ?_⟩
  · intro hn
    simp [NetkitEndpoint.Name, hn]
  · intro hn
    refine ⟨by simp [NetkitEndpoint.Name, hn], ?_⟩
    have hsep := index_text_no_separator idx hidx
    simp only [NetkitEndpoint.Name, hn, if_true]
    intro hmem
    have hsplit : ("eth" ++ toString idx).toList = "eth".toList ++ (toString idx).toList := by
      simp
    rw [hsplit, List.mem_append] at hmem
    rcases hmem with h1 | h2
    · exact absurd h1 (by decide)
    · exact hsep h2
  · intro o2 model2 w2 mac2 hmac2
    rw [createNetkitNetworkEndpoint_value o2 idx ifName model2 w2 mac2 hidx hmac2]
    exact ⟨_, rfl, rfl, rfl, rfl⟩

/-- The two successful calls of the tests of the source, index 4 without and with a
name. -/
theorem createNetkitNetworkEndpoint_names_witness :
    (0 : Int) ≤ 4 ∧
    (∃ ep, (createNetkitNetworkEndpoint (createNetworkInterfacePair pairOk) 4 "" 0
        World.empty).endpoint = some ep ∧ ep.Name = "eth4" ∧
      ep.NetPair.TapInterface.Name = "br4_kata" ∧
      ep.NetPair.TapInterface.TAPIface.Name = "tap4_kata") ∧
    (∃ ep, (createNetkitNetworkEndpoint (createNetworkInterfacePair pairOk) 4 "eth1" 0
        World.empty).endpoint = some ep ∧ ep.Name = "eth1" ∧
      ep.NetPair.TapInterface.Name = "br4_kata") := by
  obtain ⟨-, ep, h1, -, -, h2, h3, h4, -⟩ :=
    createNetkitNetworkEndpoint_names pairOk 4 "" 0 World.empty _ (by decide) rfl
  obtain ⟨-, ep2, g1, -, g2, -, g3, -⟩ :=
    createNetkitNetworkEndpoint_names pairOk 4 "eth1" 0 World.empty _ (by decide) rfl
  refine ⟨by decide, ⟨ep, h1, ?_, ?_, ?_⟩, ⟨ep2, g1, g2 (by decide), ?_⟩⟩
  · rw [(h2 rfl).1]; decide
  · rw [h3]; decide
  · rw [h4]; decide
  · rw [g3]; decide

/-- C14 as stated fails for an endpoint whose EndpointType is not the netkit tag: save
writes the EndpointType of the endpoint, so the zero-valued endpoint is saved with an
empty Type. -/
theorem save_type_of_zero_endpoint :
    (NetkitEndpoint.zero.save specPairCodec).Type_ = "" ∧
    (NetkitEndpoint.zero.save specPairCodec).Type_ ≠ NetkitEndpointType := by
  simp [NetkitEndpoint.save, NetkitEndpoint.Type_, NetkitEndpoint.zero, NetkitEndpointType]

/-- C14, as the code has it: save(e) carries the EndpointType of e as its Type, which is
the netkit tag whenever e is typed as a netkit endpoint, and a non-nil Netkit part; and
loading save(e) into a zero-valued endpoint yields an endpoint of type NetkitEndpointType
whose pair has the pair ID, bridge name, tap interface name, guest-visible name and
interworking model of e. -/
theorem save_load_round_trip (e : NetkitEndpoint) :
    (e.save specPairCodec).Type_ = e.EndpointType ∧
    (e.EndpointType = NetkitEndpointType → (e.save specPairCodec).Type_ = NetkitEndpointType) ∧
    (e.save specPairCodec).Netkit ≠ none ∧
    (NetkitEndpoint.zero.load specPairCodec (e.save specPairCodec)).EndpointType =
      NetkitEndpointType ∧
    (NetkitEndpoint.zero.load specPairCodec (e.save specPairCodec)).NetPair.TapInterface.ID =
      e.NetPair.TapInterface.ID ∧
    (NetkitEndpoint.zero.load specPairCodec (e.save specPairCodec)).NetPair.TapInterface.Name =
      e.NetPair.TapInterface.Name ∧
    (NetkitEndpoint.zero.load specPairCodec
      (e.save specPairCodec)).NetPair.TapInterface.TAPIface.Name =
        e.NetPair.TapInterface.TAPIface.Name ∧
    (NetkitEndpoint.zero.load specPairCodec (e.save specPairCodec)).NetPair.VirtIface.Name =
      e.NetPair.VirtIface.Name ∧
    (NetkitEndpoint.zero.load specPairCodec (e.save specPairCodec)).NetPair.NetInterworkingModel =
      e.NetPair.NetInterworkingModel := by
  refine ⟨rfl, ?_, ?_, rfl, rfl, rfl, rfl, rfl, rfl⟩
  · intro h
    simpa [NetkitEndpoint.save, NetkitEndpoint.Type_] using h
  · simp [NetkitEndpoint.save]

/-- The endpoint of the save and load test of the source goes through the round trip. -/
theorem save_load_round_trip_witness :
    savedEndpoint.EndpointType = NetkitEndpointType ∧
    (savedEndpoint.save specPairCodec).Type_ = NetkitEndpointType ∧
    (NetkitEndpoint.zero.load specPairCodec
      (savedEndpoint.save specPairCodec)).NetPair.TapInterface.ID =
        savedEndpoint.NetPair.TapInterface.ID :=
  ⟨rfl, (save_load_round_trip savedEndpoint).2.1 rfl, (save_load_round_trip savedEndpoint).2.2.2.2.1⟩

/-- C15: whatever the conversion of the pair, loading save(e) into a zero-valued endpoint
gives an empty PCI path, a nil CCW device and both rate limiters off, also when e has all
four set; load leaves PCIPath, CCWDevice, EndpointProperties and both rate-limiter flags of
the receiving endpoint as they were; and when the persisted form has no Netkit part load
leaves NetPair as it was too, setting EndpointType only. -/
theorem load_keeps_attachment_state (c : PairCodec) (e r : NetkitEndpoint)
    (s : PersistNetworkEndpoint) :
    ((NetkitEndpoint.zero.load c (e.save c)).PCIPath = ⟨"", "", ""⟩ ∧
      (NetkitEndpoint.zero.load c (e.save c)).CCWDevice = none ∧
      (NetkitEndpoint.zero.load c (e.save c)).RxRateLimiter = false ∧
      (NetkitEndpoint.zero.load c (e.save c)).TxRateLimiter = false) ∧
    ((r.load c s).PCIPath = r.PCIPath ∧ (r.load c s).CCWDevice = r.CCWDevice ∧
      (r.load c s).EndpointProperties = r.EndpointProperties ∧
      (r.load c s).RxRateLimiter = r.RxRateLimiter ∧
      (r.load c s).TxRateLimiter = r.TxRateLimiter ∧
      (r.load c s).EndpointType = NetkitEndpointType) ∧
    (s.Netkit = none → (r.load c s).NetPair = r.NetPair ∧
      r.load c s = { r with EndpointType := NetkitEndpointType }) := by
  refine ⟨?_, ?_, ?_⟩
  · simp [NetkitEndpoint.load, NetkitEndpoint.save, NetkitEndpoint.zero]
  · cases h : s.Netkit <;> simp [NetkitEndpoint.load, h]
  · intro h
    simp [NetkitEndpoint.load, h]

/-- An attached endpoint, with PCI path, CCW device and both rate limiters set, loses all
four through save and load. -/
theorem load_keeps_attachment_state_witness :
    attachedEndpoint.PCIPath = ⟨"0x01", "0x02", "0x03"⟩ ∧
    attachedEndpoint.CCWDevice = some ⟨"fe.0.0001"⟩ ∧
    attachedEndpoint.RxRateLimiter = true ∧ attachedEndpoint.TxRateLimiter = true ∧
    ((NetkitEndpoint.zero.load specPairCodec (attachedEndpoint.save specPairCodec)).PCIPath =
        ⟨"", "", ""⟩ ∧
      (NetkitEndpoint.zero.load specPairCodec (attachedEndpoint.save specPairCodec)).CCWDevice =
        none ∧
      (NetkitEndpoint.zero.load specPairCodec
        (attachedEndpoint.save specPairCodec)).RxRateLimiter = false ∧
      (NetkitEndpoint.zero.load specPairCodec
        (attachedEndpoint.save specPairCodec)).TxRateLimiter = false) :=
  ⟨rfl, rfl, rfl, rfl,
   (load_keeps_attachment_state specPairCodec attachedEndpoint attachedEndpoint
      (attachedEndpoint.save specPairCodec)).1⟩

/-- C16: with netNsCreated = true HotDetach makes exactly one HotplugRemoveDevice call, on
the hypervisor of the sandbox, for the endpoint and of kind NetDev, right after the
unbridging inside the namespace and whatever the unbridging returned; and HotDetach
returns what that removal returned, nil or its error. -/
theorem HotDetach_always_removes (endpoint : NetkitEndpoint) (s : Sandbox)
    (netNsPath : String) (doNetNS : NetNSOutcome) (remove : Option GoError) (w : World) :
    (endpoint.HotDetach s true netNsPath doNetNS remove w).err = remove ∧
    (endpoint.HotDetach s true netNsPath doNetNS remove w).world.trace =
      w.trace ++ [Call.doNetNSDisconnect netNsPath endpoint,
        Call.HotplugRemoveDevice s.hypervisor (Device.endpoint doNetNS.endpoint)
          DeviceType.NetDev] ∧
    (endpoint.HotDetach s true netNsPath doNetNS remove w).world.trace.filter
      Call.isHotplugRemove =
        w.trace.filter Call.isHotplugRemove ++
          [Call.HotplugRemoveDevice s.hypervisor (Device.endpoint doNetNS.endpoint)
            DeviceType.NetDev] := by
  cases remove <;>
    simp [NetkitEndpoint.HotDetach, World.call, Call.isHotplugRemove, List.filter_append]

/-- A hot detach whose unbridging fails: the removal is still issued and, succeeding,
makes HotDetach return nil. -/
theorem HotDetach_always_removes_witness :
    unbridgeFails.err = some "no such namespace" ∧
    (attachedEndpoint.HotDetach (sampleSandbox "virtio-fs") true "/run/netns/sb-1"
      unbridgeFails none World.empty).err = none ∧
    (attachedEndpoint.HotDetach (sampleSandbox "virtio-fs") true "/run/netns/sb-1"
      unbridgeFails (some "device busy") World.empty).err = some "device busy" :=
  ⟨rfl,
   (HotDetach_always_removes attachedEndpoint (sampleSandbox "virtio-fs") "/run/netns/sb-1"
      unbridgeFails none World.empty).1,
   (HotDetach_always_removes attachedEndpoint (sampleSandbox "virtio-fs") "/run/netns/sb-1"
      unbridgeFails (some "device busy") World.empty).1⟩

/-- C17: with netNsCreated = false Detach and HotDetach return nil, reach no collaborator
(no closure is run in a network namespace and the hypervisor is not called: the world is
the one before) and leave the endpoint as it was, for every endpoint, sandbox and
namespace path and whatever the collaborators would have answered. -/
theorem Detach_HotDetach_without_namespace (endpoint : NetkitEndpoint) (s : Sandbox)
    (netNsPath : String) (doNetNS : NetNSOutcome) (remove : Option GoError) (w : World) :
    endpoint.Detach false netNsPath doNetNS w = ⟨none, endpoint, w⟩ ∧
    endpoint.HotDetach s false netNsPath doNetNS remove w = ⟨none, endpoint, w⟩ := by
  simp [NetkitEndpoint.Detach, NetkitEndpoint.HotDetach]

end Kata
